import Mathlib

/-!
# State validity checker of the OMPL interface

A shallow embedding of `ompl_interface::StateValidityChecker`
(`state_validity_checker.cpp`).  The C++ member functions become pure
functions that return, next to the C++ return value, the value left in the
`double &dist` reference parameter, the planner state with its cache fields
as the call leaves them, and the list of collaborator calls made, in order.

The collaborators (space information, state space, constraint set, planning
scene) are not part of the sources; they are fields of
`ModelBasedPlanningContext` and every theorem quantifies over them.
-/

namespace ompl_interface

/-! ## Values of type `double` -/

/-- Values of the C++ type `double`: not-a-number, the two infinities and the
finite values.  Finite values are carried as rationals, which hold every
finite `double` exactly.  Values are stored, compared and passed on; the
arithmetic on them is not defined here (see `DoubleArith`). -/
inductive Double where
  | nan : Double
  | negInf : Double
  | posInf : Double
  | fin (q : ℚ) : Double
  deriving DecidableEq

namespace Double

/-- The literal `0.0`. -/
def zero : Double := fin 0

/-- The constant `std::numeric_limits<double>::infinity()`. -/
def infinity : Double := posInf

/-- The comparison `a < b` on doubles; every comparison with a NaN is false. -/
def lt : Double → Double → Bool
  | nan, _ => false
  | _, nan => false
  | negInf, negInf => false
  | negInf, _ => true
  | _, negInf => false
  | posInf, _ => false
  | fin _, posInf => true
  | fin a, fin b => decide (a < b)

end Double

/-- The operations `+` and `*` of the C++ type `double`, with the rounding,
the overflow to an infinity and the NaN rules of the machine.  They are not
defined here: a function that computes with doubles takes them as a
parameter, and what is proved about it holds for whatever they compute. -/
structure DoubleArith where
  add : Double → Double → Double
  mul : Double → Double → Double

/-! ## Data exchanged with the collaborators -/

/-- The fields of `collision_detection::CollisionRequest` that the checker
sets or that select the query mode.  A default-constructed request has an
empty group name and every flag off. -/
structure CollisionRequest where
  group_name : String := ""
  distance : Bool := false
  cost : Bool := false
  verbose : Bool := false
  deriving DecidableEq

/-- One element of `CollisionResult::cost_sources`: its `cost` and the value
of `getVolume()`. -/
structure CostSource where
  cost : Double
  volume : Double
  deriving DecidableEq

/-- The fields of `collision_detection::CollisionResult` read by the checker.
The set `cost_sources` is given as the list of its elements in iteration
order. -/
structure CollisionResult where
  collision : Bool
  distance : Double
  cost_sources : List CostSource
  deriving DecidableEq

/-- The result of `KinematicConstraintSet::decide`. -/
structure ConstraintEvaluationResult where
  satisfied : Bool
  distance : Double
  deriving DecidableEq

/-- The scratch `planning_models::KinematicState`, as its joint values. -/
abbrev KinematicState := List Double

/-- Modelled from the spec: `ModelBasedStateSpace::StateType`, whose
declaration is not among the sources.  A planner state carries its
configuration values and the cache fields `validityKnown`, `markedValid`,
`goalDistanceKnown` and `distance`. -/
structure StateType where
  values : List Double
  validityKnown : Bool
  markedValid : Bool
  goalDistanceKnown : Bool
  distance : Double
  deriving DecidableEq

namespace StateType

/-- Modelled from the spec: `StateType::isValidityKnown()`. -/
def isValidityKnown (s : StateType) : Bool := s.validityKnown

/-- Modelled from the spec: `StateType::isGoalDistanceKnown()`. -/
def isGoalDistanceKnown (s : StateType) : Bool := s.goalDistanceKnown

/-- Modelled from the spec: `StateType::isMarkedValid()`. -/
def isMarkedValid (s : StateType) : Bool := s.markedValid

/-- Modelled from the spec: `StateType::markValid()` records the verdict
"valid" in the cache fields. -/
def markValid (s : StateType) : StateType :=
  { s with validityKnown := true, markedValid := true }

/-- Modelled from the spec: `StateType::markInvalid()` records the verdict
"invalid" in the cache fields. -/
def markInvalid (s : StateType) : StateType :=
  { s with validityKnown := true, markedValid := false }

/-- Modelled from the spec: `StateType::markInvalid(double d)` records the
distance `d` and the verdict "invalid" in the cache fields. -/
def markInvalidDist (s : StateType) (d : Double) : StateType :=
  markInvalid { s with distance := d, goalDistanceKnown := true }

end StateType

/-- The collaborators reached through `planning_context_` and `si_`: what
each of them answers, as a function of the arguments it is given. -/
structure ModelBasedPlanningContext where
  /-- The result of `getJointModelGroupName()`. -/
  getJointModelGroupName : String
  /-- The result of `useStateValidityCache()`. -/
  useStateValidityCache : Bool
  /-- The result of `si_->satisfiesBounds(state)`. -/
  satisfiesBounds : StateType → Bool
  /-- The scratch state after `getOMPLStateSpace()->copyToKinematicState`. -/
  copyToKinematicState : StateType → KinematicState
  /-- The result of `getPathConstraints()`: absent, or the `decide` function
  of the constraint set. -/
  getPathConstraints : Option (KinematicState → Bool → ConstraintEvaluationResult)
  /-- The result of `getPlanningScene()->isStateFeasible(kstate, verbose)`. -/
  isStateFeasible : KinematicState → Bool → Bool
  /-- The result left in `res` by `getPlanningScene()->checkCollision`. -/
  checkCollision : CollisionRequest → KinematicState → CollisionResult

/-- One call made by the checker. -/
inductive Call where
  | satisfiesBounds : Call
  | ROS_INFO (msg : String) : Call
  | copyToKinematicState : Call
  | decide (verbose : Bool) : Call
  | isStateFeasible (verbose : Bool) : Call
  | checkCollision (req : CollisionRequest) : Call
  deriving DecidableEq

namespace Call

/-- Calls of `si_->satisfiesBounds`. -/
def isBoundsCall : Call → Bool
  | satisfiesBounds => true
  | _ => false

/-- Calls of the path-constraint evaluator. -/
def isConstraintCall : Call → Bool
  | Call.decide _ => true
  | _ => false

/-- Calls of the feasibility predicate. -/
def isFeasibilityCall : Call → Bool
  | isStateFeasible _ => true
  | _ => false

/-- Calls of the collision backend. -/
def isCollisionCall : Call → Bool
  | checkCollision _ => true
  | _ => false

end Call

/-- The members of `StateValidityChecker` that its results depend on.  The
thread-indexed scratch storage `tss_` and the `specs_` record set by the
constructor are left out: no member function modelled here reads them. -/
structure StateValidityChecker where
  planning_context_ : ModelBasedPlanningContext
  group_name_ : String
  collision_request_simple_ : CollisionRequest
  collision_request_with_distance_ : CollisionRequest
  collision_request_with_cost_ : CollisionRequest
  verbose_ : Bool

/-- What a boolean overload leaves behind: the returned value, the state with
its cache fields, and the calls made. -/
structure BoolRun where
  ret : Bool
  state : StateType
  calls : List Call
  deriving DecidableEq

/-- What a distance overload leaves behind: the returned value, the value of
the reference parameter `dist`, the state, and the calls made. -/
structure DistRun where
  ret : Bool
  dist : Double
  state : StateType
  calls : List Call
  deriving DecidableEq

/-- What `cost` and `clearance` leave behind: the returned value and the calls
made. -/
structure DoubleRun where
  ret : Double
  calls : List Call
  deriving DecidableEq

/-! ## The member functions -/

namespace StateValidityChecker

/-- The constructor `StateValidityChecker(pc)`. -/
def new (pc : ModelBasedPlanningContext) : StateValidityChecker where
  planning_context_ := pc
  group_name_ := pc.getJointModelGroupName
  verbose_ := false
  collision_request_simple_ :=
    { ({} : CollisionRequest) with group_name := pc.getJointModelGroupName }
  collision_request_with_distance_ :=
    { ({} : CollisionRequest) with distance := true, group_name := pc.getJointModelGroupName }
  collision_request_with_cost_ :=
    { ({} : CollisionRequest) with cost := true, group_name := pc.getJointModelGroupName }

/-- The member function `setVerbose(flag)`. -/
def setVerbose (c : StateValidityChecker) (flag : Bool) : StateValidityChecker :=
  { c with
    verbose_ := flag
    collision_request_simple_ := { c.collision_request_simple_ with verbose := flag }
    collision_request_with_distance_ :=
      { c.collision_request_with_distance_ with verbose := flag } }

/-- The calls of the branch taken when `si_->satisfiesBounds(state)` fails:
the bounds check, then the diagnostic when `verbose_` is set. -/
def outsideBounds (c : StateValidityChecker) : List Call :=
  if c.verbose_ then [Call.satisfiesBounds, Call.ROS_INFO "State outside bounds"]
  else [Call.satisfiesBounds]

/-- The member function `cost(state)`; `arith` gives the `+` and `*` of the
loop `c += it->cost * it->getVolume()`, which starts from `c = 0.0`. -/
def cost (c : StateValidityChecker) (arith : DoubleArith) (state : StateType) : DoubleRun :=
  let kstate := c.planning_context_.copyToKinematicState state
  let res := c.planning_context_.checkCollision c.collision_request_with_cost_ kstate
  { ret := res.cost_sources.foldl (fun acc it => arith.add acc (arith.mul it.cost it.volume))
      Double.zero
    calls := [Call.copyToKinematicState, Call.checkCollision c.collision_request_with_cost_] }

/-- The member function `clearance(state)`. -/
def clearance (c : StateValidityChecker) (state : StateType) : DoubleRun :=
  let kstate := c.planning_context_.copyToKinematicState state
  let res := c.planning_context_.checkCollision c.collision_request_with_distance_ kstate
  { ret := if res.collision then Double.zero
      else (if Double.lt res.distance Double.zero then Double.infinity else res.distance)
    calls := [Call.copyToKinematicState, Call.checkCollision c.collision_request_with_distance_] }

/-- The member function `isValidWithoutCache(state)`. -/
def isValidWithoutCache (c : StateValidityChecker) (state : StateType) : BoolRun :=
  let pc := c.planning_context_
  if !pc.satisfiesBounds state then
    { ret := false, state := state, calls := outsideBounds c }
  else
    let kstate := pc.copyToKinematicState state
    let pre := [Call.satisfiesBounds, Call.copyToKinematicState]
    -- check path constraints
    match pc.getPathConstraints with
    | some kset =>
      if !(kset kstate c.verbose_).satisfied then
        { ret := false, state := state, calls := pre ++ [Call.decide c.verbose_] }
      -- check feasibility
      else if !pc.isStateFeasible kstate c.verbose_ then
        { ret := false, state := state
          calls := pre ++ [Call.decide c.verbose_, Call.isStateFeasible c.verbose_] }
      else
        -- check collision avoidance
        let res := pc.checkCollision c.collision_request_simple_ kstate
        { ret := res.collision == false, state := state
          calls := pre ++ [Call.decide c.verbose_, Call.isStateFeasible c.verbose_,
            Call.checkCollision c.collision_request_simple_] }
    | none =>
      -- check feasibility
      if !pc.isStateFeasible kstate c.verbose_ then
        { ret := false, state := state, calls := pre ++ [Call.isStateFeasible c.verbose_] }
      else
        -- check collision avoidance
        let res := pc.checkCollision c.collision_request_simple_ kstate
        { ret := res.collision == false, state := state
          calls := pre ++ [Call.isStateFeasible c.verbose_,
            Call.checkCollision c.collision_request_simple_] }

/-- The member function `isValidWithoutCache(state, dist)`; `dist` is the
value the reference parameter holds on entry. -/
def isValidWithoutCache_dist (c : StateValidityChecker) (state : StateType) (dist : Double) :
    DistRun :=
  let pc := c.planning_context_
  if !pc.satisfiesBounds state then
    { ret := false, dist := dist, state := state, calls := outsideBounds c }
  else
    let kstate := pc.copyToKinematicState state
    let pre := [Call.satisfiesBounds, Call.copyToKinematicState]
    -- check path constraints
    match pc.getPathConstraints with
    | some kset =>
      let cer := kset kstate c.verbose_
      if !cer.satisfied then
        { ret := false, dist := cer.distance, state := state
          calls := pre ++ [Call.decide c.verbose_] }
      -- check feasibility
      else if !pc.isStateFeasible kstate c.verbose_ then
        { ret := false, dist := Double.zero, state := state
          calls := pre ++ [Call.decide c.verbose_, Call.isStateFeasible c.verbose_] }
      else
        -- check collision avoidance
        let res := pc.checkCollision c.collision_request_with_distance_ kstate
        { ret := res.collision == false, dist := res.distance, state := state
          calls := pre ++ [Call.decide c.verbose_, Call.isStateFeasible c.verbose_,
            Call.checkCollision c.collision_request_with_distance_] }
    | none =>
      -- check feasibility
      if !pc.isStateFeasible kstate c.verbose_ then
        { ret := false, dist := Double.zero, state := state
          calls := pre ++ [Call.isStateFeasible c.verbose_] }
      else
        -- check collision avoidance
        let res := pc.checkCollision c.collision_request_with_distance_ kstate
        { ret := res.collision == false, dist := res.distance, state := state
          calls := pre ++ [Call.isStateFeasible c.verbose_,
            Call.checkCollision c.collision_request_with_distance_] }

/-- The member function `isValidWithCache(state)`. -/
def isValidWithCache (c : StateValidityChecker) (state : StateType) : BoolRun :=
  let pc := c.planning_context_
  if state.isValidityKnown then
    { ret := state.isMarkedValid, state := state, calls := [] }
  else if !pc.satisfiesBounds state then
    { ret := false, state := state.markInvalid, calls := outsideBounds c }
  else
    let kstate := pc.copyToKinematicState state
    let pre := [Call.satisfiesBounds, Call.copyToKinematicState]
    -- check path constraints
    match pc.getPathConstraints with
    | some kset =>
      if !(kset kstate c.verbose_).satisfied then
        { ret := false, state := state.markInvalid, calls := pre ++ [Call.decide c.verbose_] }
      -- check feasibility
      else if !pc.isStateFeasible kstate c.verbose_ then
        { ret := false, state := state.markInvalid
          calls := pre ++ [Call.decide c.verbose_, Call.isStateFeasible c.verbose_] }
      else
        -- check collision avoidance
        let res := pc.checkCollision c.collision_request_simple_ kstate
        let calls := pre ++ [Call.decide c.verbose_, Call.isStateFeasible c.verbose_,
          Call.checkCollision c.collision_request_simple_]
        if res.collision == false then
          { ret := true, state := state.markValid, calls := calls }
        else
          { ret := false, state := state.markInvalid, calls := calls }
    | none =>
      -- check feasibility
      if !pc.isStateFeasible kstate c.verbose_ then
        { ret := false, state := state.markInvalid
          calls := pre ++ [Call.isStateFeasible c.verbose_] }
      else
        -- check collision avoidance
        let res := pc.checkCollision c.collision_request_simple_ kstate
        let calls := pre ++ [Call.isStateFeasible c.verbose_,
          Call.checkCollision c.collision_request_simple_]
        if res.collision == false then
          { ret := true, state := state.markValid, calls := calls }
        else
          { ret := false, state := state.markInvalid, calls := calls }

/-- The member function `isValidWithCache(state, dist)`; `dist` is the value
the reference parameter holds on entry. -/
def isValidWithCache_dist (c : StateValidityChecker) (state : StateType) (dist : Double) :
    DistRun :=
  let pc := c.planning_context_
  if state.isValidityKnown && state.isGoalDistanceKnown then
    { ret := state.isMarkedValid, dist := state.distance, state := state, calls := [] }
  else if !pc.satisfiesBounds state then
    { ret := false, dist := dist, state := state.markInvalidDist Double.zero
      calls := outsideBounds c }
  else
    let kstate := pc.copyToKinematicState state
    let pre := [Call.satisfiesBounds, Call.copyToKinematicState]
    -- check path constraints
    match pc.getPathConstraints with
    | some kset =>
      let cer := kset kstate c.verbose_
      if !cer.satisfied then
        { ret := false, dist := cer.distance, state := state.markInvalidDist cer.distance
          calls := pre ++ [Call.decide c.verbose_] }
      -- check feasibility
      else if !pc.isStateFeasible kstate c.verbose_ then
        { ret := false, dist := Double.zero, state := state
          calls := pre ++ [Call.decide c.verbose_, Call.isStateFeasible c.verbose_] }
      else
        -- check collision avoidance
        let res := pc.checkCollision c.collision_request_with_distance_ kstate
        { ret := res.collision == false, dist := res.distance, state := state
          calls := pre ++ [Call.decide c.verbose_, Call.isStateFeasible c.verbose_,
            Call.checkCollision c.collision_request_with_distance_] }
    | none =>
      -- check feasibility
      if !pc.isStateFeasible kstate c.verbose_ then
        { ret := false, dist := Double.zero, state := state
          calls := pre ++ [Call.isStateFeasible c.verbose_] }
      else
        -- check collision avoidance
        let res := pc.checkCollision c.collision_request_with_distance_ kstate
        { ret := res.collision == false, dist := res.distance, state := state
          calls := pre ++ [Call.isStateFeasible c.verbose_,
            Call.checkCollision c.collision_request_with_distance_] }

/-- The member function `isValid(state)`. -/
def isValid (c : StateValidityChecker) (state : StateType) : BoolRun :=
  if c.planning_context_.useStateValidityCache then isValidWithCache c state
  else isValidWithoutCache c state

/-- The member function `isValid(state, dist)`; `dist` is the value the
reference parameter holds on entry. -/
def isValid_dist (c : StateValidityChecker) (state : StateType) (dist : Double) : DistRun :=
  if c.planning_context_.useStateValidityCache then isValidWithCache_dist c state dist
  else isValidWithoutCache_dist c state dist

end StateValidityChecker

/-- How many calls in the list `calls` satisfy `p`. -/
def countCalls (p : Call → Bool) (calls : List Call) : Nat :=
  calls.countP p

/-! ## What the collaborators answer for a state -/

namespace StateValidityChecker

/-- The scratch kinematic state the stages after the bounds check look at. -/
def kstateOf (c : StateValidityChecker) (state : StateType) : KinematicState :=
  c.planning_context_.copyToKinematicState state

/-- The state satisfies the space bounds. -/
def inBounds (c : StateValidityChecker) (state : StateType) : Bool :=
  c.planning_context_.satisfiesBounds state

/-- The path-constraint set is absent or reports satisfied. -/
def constraintsPass (c : StateValidityChecker) (state : StateType) : Bool :=
  match c.planning_context_.getPathConstraints with
  | none => true
  | some kset => (kset (c.kstateOf state) c.verbose_).satisfied

/-- The scene reports the state feasible. -/
def feasible (c : StateValidityChecker) (state : StateType) : Bool :=
  c.planning_context_.isStateFeasible (c.kstateOf state) c.verbose_

/-- The answer of the collision backend to the request `req`. -/
def collisionResult (c : StateValidityChecker) (req : CollisionRequest) (state : StateType) :
    CollisionResult :=
  c.planning_context_.checkCollision req (c.kstateOf state)

/-- The first three stages pass, so that the collision stage is reached. -/
def reachesCollision (c : StateValidityChecker) (state : StateType) : Bool :=
  c.inBounds state && c.constraintsPass state && c.feasible state

end StateValidityChecker

/-- None of the calls in `calls` goes to the path-constraint evaluator, the
feasibility predicate or the collision backend. -/
def noStageCalls (calls : List Call) : Prop :=
  countCalls Call.isConstraintCall calls = 0 ∧
  countCalls Call.isFeasibilityCall calls = 0 ∧
  countCalls Call.isCollisionCall calls = 0

namespace StateValidityChecker

/-- The checker `c` in a planning context whose `useStateValidityCache()`
answers `flag`, everything else being as in `c`. -/
def withCacheFlag (c : StateValidityChecker) (flag : Bool) : StateValidityChecker :=
  { c with planning_context_ := { c.planning_context_ with useStateValidityCache := flag } }

end StateValidityChecker

namespace Call

/-- The place of a call in the order of the stages: bounds, its diagnostic,
the copy into the scratch state, path constraints, feasibility, collision. -/
def rank : Call → Nat
  | satisfiesBounds => 0
  | ROS_INFO _ => 1
  | copyToKinematicState => 2
  | Call.decide _ => 3
  | isStateFeasible _ => 4
  | checkCollision _ => 5

end Call

/-- The calls in `calls` follow the order of the stages and no stage is called
twice. -/
def inStageOrder (calls : List Call) : Prop :=
  calls.Pairwise (fun a b => a.rank < b.rank)

/-- What the fixed order with a stop at the first failure means for the calls
`calls` of one check of `state`: they follow the stage order; if the present
constraint set reports unsatisfied, neither the feasibility predicate nor the
collision backend is called; if the feasibility predicate fails, the collision
backend is not called; the collision backend is called at most once. -/
def stopsAtFirstFailure (c : StateValidityChecker) (state : StateType) (calls : List Call) :
    Prop :=
  inStageOrder calls ∧
    (c.constraintsPass state = false →
      countCalls Call.isFeasibilityCall calls = 0 ∧ countCalls Call.isCollisionCall calls = 0) ∧
    (c.feasible state = false → countCalls Call.isCollisionCall calls = 0) ∧
    countCalls Call.isCollisionCall calls ≤ 1

namespace Call

/-- The diagnostic output, which is no call to a collaborator. -/
def isDiagnostic : Call → Bool
  | ROS_INFO _ => true
  | _ => false

/-- The call with the verbosity it passes on blanked out. -/
def eraseVerbose : Call → Call
  | Call.decide _ => Call.decide false
  | isStateFeasible _ => isStateFeasible false
  | checkCollision req => checkCollision { req with verbose := false }
  | call => call

end Call

/-- The sequence of collaborator calls in `calls`: the diagnostics are dropped
and the verbosity passed to a collaborator is blanked out. -/
def collaboratorCalls (calls : List Call) : List Call :=
  (calls.filter (fun call => !call.isDiagnostic)).map Call.eraseVerbose

/-- Two runs of a boolean overload return the same value, leave the same state
and make the same sequence of collaborator calls. -/
def BoolRun.sameOutcome (r1 r2 : BoolRun) : Prop :=
  r1.ret = r2.ret ∧ r1.state = r2.state ∧
    collaboratorCalls r1.calls = collaboratorCalls r2.calls

/-- Two runs of a distance overload return the same value, leave the same
`dist` and the same state, and make the same sequence of collaborator calls. -/
def DistRun.sameOutcome (r1 r2 : DistRun) : Prop :=
  r1.ret = r2.ret ∧ r1.dist = r2.dist ∧ r1.state = r2.state ∧
    collaboratorCalls r1.calls = collaboratorCalls r2.calls

namespace StateValidityChecker

/-- The cached distance check called `n + 1` times in a row on the same state
object, each call starting from the state and the `dist` the previous one
left; the result is the last run. -/
def repeatedCheck (c : StateValidityChecker) (state : StateType) (dist : Double) : Nat → DistRun
  | 0 => c.isValidWithCache_dist state dist
  | n + 1 =>
    c.isValidWithCache_dist (repeatedCheck c state dist n).state
      (repeatedCheck c state dist n).dist

end StateValidityChecker

/-! ## A concrete scene used to evaluate the code -/

namespace Example

/-- A state with the single value `v` and nothing known about it. -/
def fresh (v : ℚ) : StateType :=
  { values := [Double.fin v], validityKnown := false, markedValid := false
    goalDistanceKnown := false, distance := Double.zero }

/-- A planning context whose space has bounds `[-1, 1]` on its single value,
without path constraints, in which every state is feasible and the collision
backend answers `collision` with distance `d` and no cost sources. -/
def scene (collision : Bool) (d : Double) (useCache : Bool) : ModelBasedPlanningContext :=
  { getJointModelGroupName := "arm"
    useStateValidityCache := useCache
    satisfiesBounds := fun s =>
      match s.values with
      | [Double.fin q] => decide (-1 ≤ q) && decide (q ≤ 1)
      | _ => false
    copyToKinematicState := fun s => s.values
    getPathConstraints := none
    isStateFeasible := fun _ _ => true
    checkCollision := fun _ _ => { collision := collision, distance := d, cost_sources := [] } }

/-- A state with the single value `v`, memoized as invalid with distance `3`. -/
def memoized (v : ℚ) : StateType :=
  { values := [Double.fin v], validityKnown := true, markedValid := false
    goalDistanceKnown := true, distance := Double.fin 3 }

/-- The checker constructed for `scene collision d useCache`. -/
def checker (collision : Bool) (d : Double) (useCache : Bool) : StateValidityChecker :=
  StateValidityChecker.new (scene collision d useCache)

/-- A constraint set that no state satisfies and that reports the distance
`7`. -/
def constraintSet : KinematicState → Bool → ConstraintEvaluationResult :=
  fun _ _ => { satisfied := false, distance := Double.fin 7 }

/-- The checker constructed for the collision-free scene with the path
constraints `constraintSet`. -/
def constrainedChecker : StateValidityChecker :=
  StateValidityChecker.new
    { scene false (Double.fin 1) false with getPathConstraints := some constraintSet }

/-- The checker constructed for a scene whose collision backend reports the
cost sources `(2, 3)` and `(1, 4)`, given as (cost, volume). -/
def costChecker : StateValidityChecker :=
  StateValidityChecker.new
    { scene false (Double.fin 1) false with
      checkCollision := fun _ _ =>
        { collision := false, distance := Double.fin 1
          cost_sources := [CostSource.mk (Double.fin 2) (Double.fin 3),
            CostSource.mk (Double.fin 1) (Double.fin 4)] } }

/-- The checker constructed for a scene with the cache on, without path
constraints, in which no state is feasible. -/
def infeasibleChecker : StateValidityChecker :=
  StateValidityChecker.new
    { scene false (Double.fin 1) true with isStateFeasible := fun _ _ => false }

end Example

/-! ## The joint state space

`model_based_joint_state_space.h` declares the class; the bodies of its
member functions are not among the sources.  Joint values are taken as finite
values, carried as rationals. -/

/-- Modelled from the spec: `planning_models::KinematicModel::JointModel`, of
which the state space needs the name and, for each dimension of the joint,
whether the dimension is rotational. -/
structure JointModel where
  name : String
  rotational : List Bool

/-- The members of `ModelBasedJointStateSpace`; `joint_bounds_` holds one
`(min, max)` interval per dimension. -/
structure ModelBasedJointStateSpace where
  joint_model_ : JointModel
  joint_bounds_ : List (ℚ × ℚ)

namespace ModelBasedJointStateSpace

/-- The class `ModelBasedJointStateSpace::StateType`: the joint state, as its
variable values. -/
structure StateType where
  joint_state : List ℚ
  deriving DecidableEq

/-- The member function `getJointModel()`. -/
def getJointModel (space : ModelBasedJointStateSpace) : JointModel :=
  space.joint_model_

/-- The member function `getJointName()`. -/
def getJointName (space : ModelBasedJointStateSpace) : String :=
  space.getJointModel.name

/-- The member function `getJointBounds()`. -/
def getJointBounds (space : ModelBasedJointStateSpace) : List (ℚ × ℚ) :=
  space.joint_bounds_

/-- Modelled from the spec: `getDimension()`, missing from the sources, is the
joint's degree-of-freedom count. -/
def getDimension (space : ModelBasedJointStateSpace) : Nat :=
  space.joint_model_.rotational.length

/-- Modelled from the spec: the half width of the canonical range of a
rotational dimension, missing from the sources; taken as the value of the
`double` constant `M_PI`. -/
def M_PI : ℚ := 884279719003555 / 281474976710656

/-- Modelled from the spec: the small numerical tolerance of `satisfiesBounds`,
missing from the sources; taken as the machine epsilon of `double`. -/
def boundsTolerance : ℚ := 1 / 4503599627370496

/-- Modelled from the spec: wrapping of a rotational value into the canonical
range, missing from the sources: whole turns are taken off until the value
lies in `[-M_PI, M_PI)`. -/
def wrapAngle (v : ℚ) : ℚ :=
  v - 2 * M_PI * ⌊(v + M_PI) / (2 * M_PI)⌋

/-- Modelled from the spec: clamping of a value into the interval
`[lo, hi]`, missing from the sources. -/
def clamp (lo hi v : ℚ) : ℚ :=
  if v < lo then lo else if hi < v then hi else v

/-- Modelled from the spec: what `enforceBounds`, missing from the sources,
does to one dimension: a rotational value is wrapped into the canonical range
first, then the value is clamped into the bound interval. -/
def enforceDimension (rotational : Bool) (bound : ℚ × ℚ) (v : ℚ) : ℚ :=
  clamp bound.1 bound.2 (if rotational then wrapAngle v else v)

/-- Modelled from the spec: `enforceBounds`, missing from the sources, over
the dimensions in order. -/
def enforceAll : List Bool → List (ℚ × ℚ) → List ℚ → List ℚ
  | r :: rs, b :: bs, v :: vs => enforceDimension r b v :: enforceAll rs bs vs
  | _, _, _ => []

/-- Modelled from the spec: `satisfiesBounds`, missing from the sources, over
the dimensions in order: every value lies within its bound interval,
inclusive, up to the tolerance `margin`. -/
def satisfiesAll (margin : ℚ) : List (ℚ × ℚ) → List ℚ → Bool
  | b :: bs, v :: vs =>
    decide (b.1 - margin ≤ v) && decide (v ≤ b.2 + margin) && satisfiesAll margin bs vs
  | _, _ => true

/-- Modelled from the spec: the member function `enforceBounds(state)`, whose
body is missing from the sources: it clamps each dimension of `state` into its
bound interval, wrapping rotational dimensions into the canonical range
before clamping. -/
def enforceBounds (space : ModelBasedJointStateSpace) (state : StateType) : StateType :=
  { joint_state := enforceAll space.joint_model_.rotational space.joint_bounds_
      state.joint_state }

/-- Modelled from the spec: the member function `satisfiesBounds(state)`,
whose body is missing from the sources: true iff every dimension lies within
its bound interval, inclusive, with a small numerical tolerance. -/
def satisfiesBounds (space : ModelBasedJointStateSpace) (state : StateType) : Bool :=
  satisfiesAll boundsTolerance space.joint_bounds_ state.joint_state

/-- Every dimension of `state` lies within its bound interval, without any
tolerance. -/
def withinBounds (space : ModelBasedJointStateSpace) (state : StateType) : Bool :=
  satisfiesAll 0 space.joint_bounds_ state.joint_state

/-- A space of a single revolute joint with the bounds `[-1, 1]`. -/
def revolute : ModelBasedJointStateSpace :=
  { joint_model_ := { name := "joint", rotational := [true] }
    joint_bounds_ := [(-1, 1)] }

end ModelBasedJointStateSpace

/-! ## Theorems -/

namespace StateValidityChecker

/-- C1: the uncached boolean check returns true exactly when the state
satisfies the space bounds, the path-constraint set is absent or reports
satisfied, the scene reports the state feasible and the collision backend,
asked with the simple request, reports no collision; otherwise it returns
false. -/
theorem isValidWithoutCache_true_iff (c : StateValidityChecker) (state : StateType) :
    (c.isValidWithoutCache state).ret = true ↔
      (c.planning_context_.satisfiesBounds state = true ∧
        (c.planning_context_.getPathConstraints = none ∨
          ∃ kset, c.planning_context_.getPathConstraints = some kset ∧
            (kset (c.planning_context_.copyToKinematicState state) c.verbose_).satisfied = true) ∧
        c.planning_context_.isStateFeasible
          (c.planning_context_.copyToKinematicState state) c.verbose_ = true ∧
        (c.planning_context_.checkCollision c.collision_request_simple_
          (c.planning_context_.copyToKinematicState state)).collision = false) := by
  cases hb : c.planning_context_.satisfiesBounds state
  · simp [isValidWithoutCache, hb]
  · cases hf : c.planning_context_.isStateFeasible
        (c.planning_context_.copyToKinematicState state) c.verbose_ <;>
    cases hk : c.planning_context_.getPathConstraints with
    | none => simp [isValidWithoutCache, hb, hk, hf]
    | some kset =>
      cases hs : (kset (c.planning_context_.copyToKinematicState state) c.verbose_).satisfied <;>
      simp [isValidWithoutCache, hb, hk, hf, hs]

/-- The branch taken on a bounds failure calls neither the path-constraint
evaluator, nor the feasibility predicate, nor the collision backend. -/
theorem noStageCalls_outsideBounds (c : StateValidityChecker) :
    noStageCalls c.outsideBounds := by
  cases hv : c.verbose_ <;>
  simp [noStageCalls, countCalls, outsideBounds, hv, Call.isConstraintCall,
    Call.isFeasibilityCall, Call.isCollisionCall]

/-- C2: for a state that does not satisfy the space bounds, the uncached
boolean and distance checks, and the cached boolean and distance checks when
they are entered without a memo hit, all return false and make no call to the
path-constraint evaluator, the feasibility predicate or the collision
backend. -/
theorem outside_bounds_short_circuit (c : StateValidityChecker) (state : StateType)
    (dist : Double) (hb : c.planning_context_.satisfiesBounds state = false) :
    ((c.isValidWithoutCache state).ret = false ∧
        noStageCalls (c.isValidWithoutCache state).calls) ∧
      ((c.isValidWithoutCache_dist state dist).ret = false ∧
        noStageCalls (c.isValidWithoutCache_dist state dist).calls) ∧
      (state.isValidityKnown = false →
        (c.isValidWithCache state).ret = false ∧
          noStageCalls (c.isValidWithCache state).calls) ∧
      ((state.isValidityKnown && state.isGoalDistanceKnown) = false →
        (c.isValidWithCache_dist state dist).ret = false ∧
          noStageCalls (c.isValidWithCache_dist state dist).calls) := by
  have hn := noStageCalls_outsideBounds c
  refine ⟨?_, ?_, ?_, ?_⟩
  · simpa [isValidWithoutCache, hb] using hn
  · simpa [isValidWithoutCache_dist, hb] using hn
  · intro hk
    simpa [isValidWithCache, hb, hk] using hn
  · intro hk
    simp only [isValidWithCache_dist, hk, hb]
    simpa using hn

/-- Witness for C2: the state `2` lies outside the bounds `[-1, 1]` and has
nothing memoized; all four checks return false without reaching the later
stages. -/
theorem outside_bounds_short_circuit_witness :
    (Example.checker false (Double.fin 1) true).planning_context_.satisfiesBounds
        (Example.fresh 2) = false ∧
      ((Example.checker false (Double.fin 1) true).isValidWithoutCache (Example.fresh 2)).ret
        = false ∧
      ((Example.checker false (Double.fin 1) true).isValidWithCache (Example.fresh 2)).ret
        = false ∧
      noStageCalls ((Example.checker false (Double.fin 1) true).isValidWithCache_dist
        (Example.fresh 2) Double.posInf).calls :=
  ⟨by decide,
    (outside_bounds_short_circuit (Example.checker false (Double.fin 1) true) (Example.fresh 2)
      Double.posInf (by decide)).1.1,
    ((outside_bounds_short_circuit (Example.checker false (Double.fin 1) true) (Example.fresh 2)
      Double.posInf (by decide)).2.2.1 (by decide)).1,
    ((outside_bounds_short_circuit (Example.checker false (Double.fin 1) true) (Example.fresh 2)
      Double.posInf (by decide)).2.2.2 (by decide)).2⟩

/-- A state whose validity is known is answered from its cache fields: no call
is made and the state is left as it is. -/
theorem isValidWithCache_of_known (c : StateValidityChecker) (state : StateType)
    (hk : state.isValidityKnown = true) :
    c.isValidWithCache state = { ret := state.isMarkedValid, state := state, calls := [] } := by
  simp [isValidWithCache, hk]

/-- Entered with the validity unknown, the cached boolean check leaves the
validity known and the recorded verdict equal to the returned one. -/
theorem isValidWithCache_records (c : StateValidityChecker) (state : StateType)
    (hk : state.isValidityKnown = false) :
    (c.isValidWithCache state).state.isValidityKnown = true ∧
      (c.isValidWithCache state).state.isMarkedValid = (c.isValidWithCache state).ret := by
  have hk : state.validityKnown = false := hk
  cases hb : c.planning_context_.satisfiesBounds state
  · simp [isValidWithCache, hk, hb, StateType.markInvalid, StateType.isValidityKnown,
      StateType.isMarkedValid]
  · cases hf : c.planning_context_.isStateFeasible
        (c.planning_context_.copyToKinematicState state) c.verbose_ <;>
    cases hc : (c.planning_context_.checkCollision c.collision_request_simple_
        (c.planning_context_.copyToKinematicState state)).collision <;>
    cases hp : c.planning_context_.getPathConstraints with
    | none =>
      simp [isValidWithCache, hk, hb, hp, hf, hc, StateType.markInvalid, StateType.markValid,
        StateType.isValidityKnown, StateType.isMarkedValid]
    | some kset =>
      cases hs : (kset (c.planning_context_.copyToKinematicState state) c.verbose_).satisfied <;>
      simp [isValidWithCache, hk, hb, hp, hf, hc, hs, StateType.markInvalid,
        StateType.markValid, StateType.isValidityKnown, StateType.isMarkedValid]

/-- Entered with the validity unknown, the cached boolean check asks the
bounds once, and asks the collision backend once if the first three stages
pass and not at all otherwise. -/
theorem isValidWithCache_counts (c : StateValidityChecker) (state : StateType)
    (hk : state.isValidityKnown = false) :
    countCalls Call.isBoundsCall (c.isValidWithCache state).calls = 1 ∧
      countCalls Call.isCollisionCall (c.isValidWithCache state).calls
        = if c.reachesCollision state then 1 else 0 := by
  cases hb : c.planning_context_.satisfiesBounds state
  · cases hv : c.verbose_ <;>
    simp [isValidWithCache, hk, hb, hv, outsideBounds, countCalls, reachesCollision, inBounds,
      Call.isBoundsCall, Call.isCollisionCall]
  · cases hf : c.planning_context_.isStateFeasible
        (c.planning_context_.copyToKinematicState state) c.verbose_ <;>
    cases hc : (c.planning_context_.checkCollision c.collision_request_simple_
        (c.planning_context_.copyToKinematicState state)).collision <;>
    cases hp : c.planning_context_.getPathConstraints with
    | none =>
      simp [isValidWithCache, hk, hb, hp, hf, hc, countCalls, reachesCollision, inBounds,
        constraintsPass, feasible, kstateOf, Call.isBoundsCall, Call.isCollisionCall]
    | some kset =>
      cases hs : (kset (c.planning_context_.copyToKinematicState state) c.verbose_).satisfied <;>
      simp [isValidWithCache, hk, hb, hp, hf, hc, hs, countCalls, reachesCollision, inBounds,
        constraintsPass, feasible, kstateOf, Call.isBoundsCall, Call.isCollisionCall]

/-- C3: for a state whose validity is unknown, two cached boolean checks in a
row evaluate the pipeline once: the second call returns the verdict of the
first, makes no call at all and leaves the state as the first call left it;
the bounds are asked once over the two calls, the collision backend at most
once, and exactly once when the first call reached the collision stage. -/
theorem isValidWithCache_twice (c : StateValidityChecker) (state : StateType)
    (hk : state.isValidityKnown = false) :
    (c.isValidWithCache (c.isValidWithCache state).state).ret = (c.isValidWithCache state).ret ∧
      (c.isValidWithCache (c.isValidWithCache state).state).calls = [] ∧
      (c.isValidWithCache (c.isValidWithCache state).state).state
        = (c.isValidWithCache state).state ∧
      countCalls Call.isBoundsCall ((c.isValidWithCache state).calls ++
        (c.isValidWithCache (c.isValidWithCache state).state).calls) = 1 ∧
      countCalls Call.isCollisionCall ((c.isValidWithCache state).calls ++
        (c.isValidWithCache (c.isValidWithCache state).state).calls) ≤ 1 ∧
      (c.reachesCollision state = true →
        countCalls Call.isCollisionCall ((c.isValidWithCache state).calls ++
          (c.isValidWithCache (c.isValidWithCache state).state).calls) = 1) := by
  obtain ⟨hknown, hmark⟩ := isValidWithCache_records c state hk
  obtain ⟨hbounds, hcoll⟩ := isValidWithCache_counts c state hk
  have h2 := isValidWithCache_of_known c (c.isValidWithCache state).state hknown
  rw [h2]
  refine ⟨hmark, rfl, rfl, ?_, ?_, ?_⟩
  · simpa using hbounds
  · simp only [List.append_nil, hcoll]
    split <;> simp
  · intro hr
    simp [hcoll, hr]

/-- Witness for C3: the in-bounds, feasible, collision-free state `0` with
nothing memoized is checked twice; the collision backend is asked once. -/
theorem isValidWithCache_twice_witness :
    (Example.fresh 0).isValidityKnown = false ∧
      ((Example.checker false (Double.fin 1) true).isValidWithCache
        ((Example.checker false (Double.fin 1) true).isValidWithCache (Example.fresh 0)).state).ret
        = true ∧
      countCalls Call.isCollisionCall
        (((Example.checker false (Double.fin 1) true).isValidWithCache (Example.fresh 0)).calls ++
          ((Example.checker false (Double.fin 1) true).isValidWithCache
            ((Example.checker false (Double.fin 1) true).isValidWithCache
              (Example.fresh 0)).state).calls) = 1 :=
  ⟨by decide,
    (isValidWithCache_twice (Example.checker false (Double.fin 1) true) (Example.fresh 0)
      (by decide)).1.trans (by decide),
    (isValidWithCache_twice (Example.checker false (Double.fin 1) true) (Example.fresh 0)
      (by decide)).2.2.2.2.2 (by decide)⟩

/-- C4, evaluated on the code: the in-bounds, feasible, collision-free state
`0` with nothing memoized is given to the cached distance check.  The call
returns true with the reported distance `1` in `dist`, but the state comes
back with neither `validityKnown` nor `goalDistanceKnown` set, and a second
identical call asks the collision backend again. -/
theorem isValidWithCache_dist_leaves_memo_unset :
    ((Example.checker false (Double.fin 1) true).isValidWithCache_dist (Example.fresh 0)
        Double.posInf).ret = true ∧
      ((Example.checker false (Double.fin 1) true).isValidWithCache_dist (Example.fresh 0)
        Double.posInf).dist = Double.fin 1 ∧
      ((Example.checker false (Double.fin 1) true).isValidWithCache_dist (Example.fresh 0)
        Double.posInf).state.isValidityKnown = false ∧
      ((Example.checker false (Double.fin 1) true).isValidWithCache_dist (Example.fresh 0)
        Double.posInf).state.isGoalDistanceKnown = false ∧
      countCalls Call.isCollisionCall
        ((Example.checker false (Double.fin 1) true).isValidWithCache_dist
          ((Example.checker false (Double.fin 1) true).isValidWithCache_dist (Example.fresh 0)
            Double.posInf).state
          ((Example.checker false (Double.fin 1) true).isValidWithCache_dist (Example.fresh 0)
            Double.posInf).dist).calls = 1 := by
  decide

/-- The uncached distance check always starts with the bounds check. -/
theorem isValidWithoutCache_dist_head (c : StateValidityChecker) (state : StateType)
    (dist : Double) :
    (c.isValidWithoutCache_dist state dist).calls.head? = some Call.satisfiesBounds := by
  cases hb : c.planning_context_.satisfiesBounds state
  · cases hv : c.verbose_ <;> simp [isValidWithoutCache_dist, hb, hv, outsideBounds]
  · cases hf : c.planning_context_.isStateFeasible
        (c.planning_context_.copyToKinematicState state) c.verbose_ <;>
    cases hp : c.planning_context_.getPathConstraints with
    | none => simp [isValidWithoutCache_dist, hb, hp, hf]
    | some kset =>
      cases hs : (kset (c.planning_context_.copyToKinematicState state) c.verbose_).satisfied <;>
      simp [isValidWithoutCache_dist, hb, hp, hf, hs]

/-- Entered without a memo hit, the cached distance check returns the same
value, leaves the same `dist` and makes the same calls as the uncached
distance check. -/
theorem isValidWithCache_dist_of_miss (c : StateValidityChecker) (state : StateType)
    (dist : Double) (hm : (state.isValidityKnown && state.isGoalDistanceKnown) = false) :
    (c.isValidWithCache_dist state dist).ret = (c.isValidWithoutCache_dist state dist).ret ∧
      (c.isValidWithCache_dist state dist).dist = (c.isValidWithoutCache_dist state dist).dist ∧
      (c.isValidWithCache_dist state dist).calls
        = (c.isValidWithoutCache_dist state dist).calls := by
  cases hb : c.planning_context_.satisfiesBounds state
  · simp [isValidWithCache_dist, isValidWithoutCache_dist, hm, hb]
  · cases hf : c.planning_context_.isStateFeasible
        (c.planning_context_.copyToKinematicState state) c.verbose_ <;>
    cases hp : c.planning_context_.getPathConstraints with
    | none => simp [isValidWithCache_dist, isValidWithoutCache_dist, hm, hb, hp, hf]
    | some kset =>
      cases hs : (kset (c.planning_context_.copyToKinematicState state) c.verbose_).satisfied <;>
      simp [isValidWithCache_dist, isValidWithoutCache_dist, hm, hb, hp, hf, hs]

/-- C5: for a state with `validityKnown` set, the cached boolean check returns
`markedValid` without any call and without changing the state.  The cached
distance check does the same, and sets `dist` to the cached distance, when
`goalDistanceKnown` is set as well; when it is not set, the memo is not used:
the pipeline is run again from the bounds check, as in the uncached distance
check.  So the distance check makes no call exactly when `goalDistanceKnown`
is set. -/
theorem memo_hit (c : StateValidityChecker) (state : StateType) (dist : Double)
    (hk : state.isValidityKnown = true) :
    c.isValidWithCache state
        = { ret := state.isMarkedValid, state := state, calls := [] } ∧
      (state.isGoalDistanceKnown = true →
        c.isValidWithCache_dist state dist =
          { ret := state.isMarkedValid, dist := state.distance, state := state, calls := [] }) ∧
      (state.isGoalDistanceKnown = false →
        (c.isValidWithCache_dist state dist).calls.head? = some Call.satisfiesBounds ∧
          (c.isValidWithCache_dist state dist).ret = (c.isValidWithoutCache_dist state dist).ret ∧
          (c.isValidWithCache_dist state dist).dist
            = (c.isValidWithoutCache_dist state dist).dist ∧
          (c.isValidWithCache_dist state dist).calls
            = (c.isValidWithoutCache_dist state dist).calls) ∧
      ((c.isValidWithCache_dist state dist).calls = [] ↔ state.isGoalDistanceKnown = true) := by
  have hmiss : state.isGoalDistanceKnown = false →
      (c.isValidWithCache_dist state dist).calls.head? = some Call.satisfiesBounds ∧
        (c.isValidWithCache_dist state dist).ret = (c.isValidWithoutCache_dist state dist).ret ∧
        (c.isValidWithCache_dist state dist).dist
          = (c.isValidWithoutCache_dist state dist).dist ∧
        (c.isValidWithCache_dist state dist).calls
          = (c.isValidWithoutCache_dist state dist).calls := by
    intro hg
    have h := isValidWithCache_dist_of_miss c state dist (by simp [hk, hg])
    refine ⟨?_, h.1, h.2.1, h.2.2⟩
    rw [h.2.2]
    exact isValidWithoutCache_dist_head c state dist
  have hhit : state.isGoalDistanceKnown = true →
      c.isValidWithCache_dist state dist =
        { ret := state.isMarkedValid, dist := state.distance, state := state, calls := [] } := by
    intro hg
    simp [isValidWithCache_dist, hk, hg]
  refine ⟨isValidWithCache_of_known c state hk, hhit, hmiss, ?_⟩
  constructor
  · intro hnil
    cases hg : state.isGoalDistanceKnown
    · have h := (hmiss hg).1
      rw [hnil] at h
      simp at h
    · rfl
  · intro hg
    rw [hhit hg]

/-- Witness for C5: the in-bounds state `0`, memoized as invalid with the
distance `3`, is answered from the memo by the boolean and the distance check
even though the scene would find it valid. -/
theorem memo_hit_witness :
    (Example.memoized 0).isValidityKnown = true ∧
      (Example.checker false (Double.fin 1) true).isValidWithCache (Example.memoized 0)
        = { ret := false, state := Example.memoized 0, calls := [] } ∧
      (Example.checker false (Double.fin 1) true).isValidWithCache_dist (Example.memoized 0)
          Double.posInf
        = { ret := false, dist := Double.fin 3, state := Example.memoized 0, calls := [] } :=
  ⟨by decide,
    (memo_hit (Example.checker false (Double.fin 1) true) (Example.memoized 0) Double.posInf
      (by decide)).1,
    (memo_hit (Example.checker false (Double.fin 1) true) (Example.memoized 0) Double.posInf
      (by decide)).2.1 (by decide)⟩

/-- C6: for an in-bounds state the uncached distance check leaves in `dist`
the distance reported by the constraint evaluator when a present constraint
set is unsatisfied, `0.0` when the constraints pass or are absent and the
feasibility predicate fails, and the distance reported by the collision
backend for the with-distance request whenever the collision stage is
reached, whatever the reported collision flag. -/
theorem isValidWithoutCache_dist_yields (c : StateValidityChecker) (state : StateType)
    (dist : Double) (hb : c.planning_context_.satisfiesBounds state = true) :
    (∀ kset, c.planning_context_.getPathConstraints = some kset →
        (kset (c.planning_context_.copyToKinematicState state) c.verbose_).satisfied = false →
        (c.isValidWithoutCache_dist state dist).dist
          = (kset (c.planning_context_.copyToKinematicState state) c.verbose_).distance) ∧
      (c.constraintsPass state = true → c.feasible state = false →
        (c.isValidWithoutCache_dist state dist).dist = Double.zero) ∧
      (c.constraintsPass state = true → c.feasible state = true →
        (c.isValidWithoutCache_dist state dist).dist
            = (c.planning_context_.checkCollision c.collision_request_with_distance_
                (c.planning_context_.copyToKinematicState state)).distance ∧
          (c.isValidWithoutCache_dist state dist).calls.getLast?
            = some (Call.checkCollision c.collision_request_with_distance_)) := by
  refine ⟨?_, ?_, ?_⟩
  · intro kset hp hs
    simp [isValidWithoutCache_dist, hb, hp, hs]
  · intro hcp hf
    cases hp : c.planning_context_.getPathConstraints with
    | none =>
      simp only [feasible, kstateOf] at hf
      simp [isValidWithoutCache_dist, hb, hp, hf]
    | some kset =>
      simp only [constraintsPass, kstateOf, hp] at hcp
      simp only [feasible, kstateOf] at hf
      simp [isValidWithoutCache_dist, hb, hp, hf, hcp]
  · intro hcp hf
    cases hp : c.planning_context_.getPathConstraints with
    | none =>
      simp only [feasible, kstateOf] at hf
      simp [isValidWithoutCache_dist, hb, hp, hf]
    | some kset =>
      simp only [constraintsPass, kstateOf, hp] at hcp
      simp only [feasible, kstateOf] at hf
      simp [isValidWithoutCache_dist, hb, hp, hf, hcp]

/-- Witness for C6: in the constrained scene the in-bounds state `0` violates
the path constraints, which report the distance `7`; that is the value left in
`dist`. -/
theorem isValidWithoutCache_dist_yields_witness :
    Example.constrainedChecker.planning_context_.satisfiesBounds (Example.fresh 0) = true ∧
      (Example.constrainedChecker.isValidWithoutCache_dist (Example.fresh 0) Double.posInf).dist
        = Double.fin 7 :=
  ⟨by decide,
    (isValidWithoutCache_dist_yields Example.constrainedChecker (Example.fresh 0) Double.posInf
      (by decide)).1 Example.constraintSet rfl (by decide)⟩

/-- C7 as stated fails: with the cache switched off, the in-bounds, feasible
state `0` is reported in collision with distance `-1`; the distance check
returns false and leaves `-1` in `dist`, not `0.0`. -/
theorem isValid_dist_collision_not_zero :
    ((Example.checker true (Double.fin (-1)) false).planning_context_.checkCollision
        (Example.checker true (Double.fin (-1)) false).collision_request_with_distance_
        ((Example.checker true (Double.fin (-1)) false).planning_context_.copyToKinematicState
          (Example.fresh 0))).collision = true ∧
      ((Example.checker true (Double.fin (-1)) false).isValid_dist (Example.fresh 0)
        Double.zero).ret = false ∧
      ((Example.checker true (Double.fin (-1)) false).isValid_dist (Example.fresh 0)
        Double.zero).dist = Double.fin (-1) ∧
      ((Example.checker true (Double.fin (-1)) false).isValid_dist (Example.fresh 0)
        Double.zero).dist ≠ Double.zero := by
  decide

/-- C7, amended: when the collision backend reports a collision for the state
and the verdict is not read from the memo (the cache is switched off, or the
validity of the state is unknown), `isValid` returns false in both overloads;
if the distance overload reaches the collision stage it leaves the distance
reported by the backend in `dist`; and `clearance` is `0.0`. -/
theorem isValid_collision (c : StateValidityChecker) (state : StateType) (dist : Double)
    (hs : (c.collisionResult c.collision_request_simple_ state).collision = true)
    (hd : (c.collisionResult c.collision_request_with_distance_ state).collision = true)
    (hm : c.planning_context_.useStateValidityCache = false ∨ state.isValidityKnown = false) :
    (c.isValid state).ret = false ∧
      (c.isValid_dist state dist).ret = false ∧
      (c.reachesCollision state = true →
        (c.isValid_dist state dist).dist
          = (c.collisionResult c.collision_request_with_distance_ state).distance) ∧
      (c.clearance state).ret = Double.zero := by
  simp only [collisionResult, kstateOf] at hs hd
  have hu : (c.isValidWithoutCache state).ret = false := by
    cases hb : c.planning_context_.satisfiesBounds state
    · simp [isValidWithoutCache, hb]
    · cases hf : c.planning_context_.isStateFeasible
          (c.planning_context_.copyToKinematicState state) c.verbose_ <;>
      cases hp : c.planning_context_.getPathConstraints with
      | none => simp [isValidWithoutCache, hb, hp, hf, hs]
      | some kset =>
        cases hsat : (kset (c.planning_context_.copyToKinematicState state)
          c.verbose_).satisfied <;>
        simp [isValidWithoutCache, hb, hp, hf, hs, hsat]
  have hud : (c.isValidWithoutCache_dist state dist).ret = false ∧
      (c.reachesCollision state = true →
        (c.isValidWithoutCache_dist state dist).dist
          = (c.planning_context_.checkCollision c.collision_request_with_distance_
              (c.planning_context_.copyToKinematicState state)).distance) := by
    cases hb : c.planning_context_.satisfiesBounds state
    · simp [isValidWithoutCache_dist, hb, reachesCollision, inBounds]
    · cases hf : c.planning_context_.isStateFeasible
          (c.planning_context_.copyToKinematicState state) c.verbose_ <;>
      cases hp : c.planning_context_.getPathConstraints with
      | none =>
        simp [isValidWithoutCache_dist, hb, hp, hf, hd, reachesCollision, inBounds,
          constraintsPass, feasible, kstateOf]
      | some kset =>
        cases hk : (kset (c.planning_context_.copyToKinematicState state) c.verbose_).satisfied <;>
        simp [isValidWithoutCache_dist, hb, hp, hf, hd, hk, reachesCollision, inBounds,
          constraintsPass, feasible, kstateOf]
  have hcl : (c.clearance state).ret = Double.zero := by
    simp [clearance, hd]
  cases hcache : c.planning_context_.useStateValidityCache
  · simp only [isValid, isValid_dist, hcache, collisionResult, kstateOf, Bool.false_eq_true,
      if_false]
    exact ⟨hu, hud.1, hud.2, hcl⟩
  · have hk : state.isValidityKnown = false := by
      rcases hm with h | h
      · rw [hcache] at h
        cases h
      · exact h
    have hmiss := isValidWithCache_dist_of_miss c state dist (by simp [hk])
    have hc : (c.isValidWithCache state).ret = false := by
      cases hb : c.planning_context_.satisfiesBounds state
      · simp [isValidWithCache, hk, hb]
      · cases hf : c.planning_context_.isStateFeasible
            (c.planning_context_.copyToKinematicState state) c.verbose_ <;>
        cases hp : c.planning_context_.getPathConstraints with
        | none => simp [isValidWithCache, hk, hb, hp, hf, hs]
        | some kset =>
          cases hsat : (kset (c.planning_context_.copyToKinematicState state)
            c.verbose_).satisfied <;>
          simp [isValidWithCache, hk, hb, hp, hf, hs, hsat]
    simp only [isValid, isValid_dist, hcache, collisionResult, kstateOf, if_true]
    refine ⟨hc, ?_, ?_, hcl⟩
    · rw [hmiss.1]
      exact hud.1
    · intro hr
      rw [hmiss.2.1]
      exact hud.2 hr

/-- Witness for C7, amended: the colliding state of the counterexample, with
the cache switched off. -/
theorem isValid_collision_witness :
    ((Example.checker true (Double.fin (-1)) false).isValid (Example.fresh 0)).ret = false ∧
      ((Example.checker true (Double.fin (-1)) false).isValid_dist (Example.fresh 0)
        Double.zero).ret = false ∧
      ((Example.checker true (Double.fin (-1)) false).clearance (Example.fresh 0)).ret
        = Double.zero :=
  ⟨(isValid_collision (Example.checker true (Double.fin (-1)) false) (Example.fresh 0)
      Double.zero (by decide) (by decide) (Or.inl (by decide))).1,
    (isValid_collision (Example.checker true (Double.fin (-1)) false) (Example.fresh 0)
      Double.zero (by decide) (by decide) (Or.inl (by decide))).2.1,
    (isValid_collision (Example.checker true (Double.fin (-1)) false) (Example.fresh 0)
      Double.zero (by decide) (by decide) (Or.inl (by decide))).2.2.2⟩

/-- C8: `clearance` makes one collision query with the with-distance request
and returns `0.0` if a collision is reported, `+infinity` if no collision and
a negative distance are reported, and the reported distance otherwise; the
returned value is never negative. -/
theorem clearance_cases (c : StateValidityChecker) (state : StateType) :
    ((c.collisionResult c.collision_request_with_distance_ state).collision = true →
        (c.clearance state).ret = Double.zero) ∧
      ((c.collisionResult c.collision_request_with_distance_ state).collision = false →
        Double.lt (c.collisionResult c.collision_request_with_distance_ state).distance
          Double.zero = true →
        (c.clearance state).ret = Double.infinity) ∧
      ((c.collisionResult c.collision_request_with_distance_ state).collision = false →
        Double.lt (c.collisionResult c.collision_request_with_distance_ state).distance
          Double.zero = false →
        (c.clearance state).ret
          = (c.collisionResult c.collision_request_with_distance_ state).distance) ∧
      Double.lt (c.clearance state).ret Double.zero = false ∧
      (c.clearance state).calls
        = [Call.copyToKinematicState, Call.checkCollision c.collision_request_with_distance_] := by
  have hz : Double.lt Double.zero Double.zero = false := by decide
  have hi : Double.lt Double.infinity Double.zero = false := by decide
  simp only [collisionResult, kstateOf]
  refine ⟨?_, ?_, ?_, ?_, rfl⟩
  · intro hc
    simp [clearance, hc]
  · intro hc hn
    simp [clearance, hc, hn]
  · intro hc hn
    simp [clearance, hc, hn]
  · cases hc : (c.planning_context_.checkCollision c.collision_request_with_distance_
        (c.planning_context_.copyToKinematicState state)).collision <;>
    cases hn : Double.lt (c.planning_context_.checkCollision c.collision_request_with_distance_
        (c.planning_context_.copyToKinematicState state)).distance Double.zero <;>
    simp [clearance, hc, hn, hz, hi]

/-- Witness for C8: a collision-free state with the reported distance `1` has
clearance `1`, and one with the reported distance `-1` has clearance
`+infinity`. -/
theorem clearance_cases_witness :
    ((Example.checker false (Double.fin 1) false).clearance (Example.fresh 0)).ret
        = Double.fin 1 ∧
      ((Example.checker false (Double.fin (-1)) false).clearance (Example.fresh 0)).ret
        = Double.posInf :=
  ⟨(clearance_cases (Example.checker false (Double.fin 1) false) (Example.fresh 0)).2.2.1
      (by decide) (by decide),
    (clearance_cases (Example.checker false (Double.fin (-1)) false) (Example.fresh 0)).2.1
      (by decide) (by decide)⟩

/-- The cost in a scene whose backend reports the cost sources `(2, 3)` and
`(1, 4)`: `(0.0 + 2 * 3) + 1 * 4` in the arithmetic of `double`. -/
theorem cost_of_two_sources (arith : DoubleArith) :
    (Example.costChecker.cost arith (Example.fresh 0)).ret
      = arith.add (arith.add Double.zero (arith.mul (Double.fin 2) (Double.fin 3)))
          (arith.mul (Double.fin 1) (Double.fin 4)) :=
  rfl

/-- The member function `setVerbose` sets the checker's own flag and the
`verbose` field of the simple and the with-distance request; the with-cost
request is left as it was. -/
theorem setVerbose_fields (c : StateValidityChecker) (flag : Bool) :
    (c.setVerbose flag).verbose_ = flag ∧
      (c.setVerbose flag).collision_request_simple_.verbose = flag ∧
      (c.setVerbose flag).collision_request_with_distance_.verbose = flag ∧
      (c.setVerbose flag).collision_request_with_cost_ = c.collision_request_with_cost_ :=
  ⟨rfl, rfl, rfl, rfl⟩

/-- C10, evaluated on the code: after `setVerbose(true)` on a freshly
constructed checker the checker's flag and the `verbose` field of the simple
and the with-distance request are true, but the `verbose` field of the
with-cost request is still false. -/
theorem setVerbose_skips_cost_request :
    ((Example.checker false Double.zero false).setVerbose true).verbose_ = true ∧
      ((Example.checker false Double.zero false).setVerbose true).collision_request_simple_.verbose
        = true ∧
      ((Example.checker false Double.zero
        false).setVerbose true).collision_request_with_distance_.verbose = true ∧
      ((Example.checker false Double.zero
        false).setVerbose true).collision_request_with_cost_.verbose = false := by
  decide

/-- Entered with the validity unknown, the cached boolean check returns the
same value and makes the same calls as the uncached boolean check. -/
theorem isValidWithCache_of_miss (c : StateValidityChecker) (state : StateType)
    (hk : state.isValidityKnown = false) :
    (c.isValidWithCache state).ret = (c.isValidWithoutCache state).ret ∧
      (c.isValidWithCache state).calls = (c.isValidWithoutCache state).calls := by
  cases hb : c.planning_context_.satisfiesBounds state
  · simp [isValidWithCache, isValidWithoutCache, hk, hb]
  · cases hf : c.planning_context_.isStateFeasible
        (c.planning_context_.copyToKinematicState state) c.verbose_ <;>
    cases hc : (c.planning_context_.checkCollision c.collision_request_simple_
        (c.planning_context_.copyToKinematicState state)).collision <;>
    cases hp : c.planning_context_.getPathConstraints with
    | none => simp [isValidWithCache, isValidWithoutCache, hk, hb, hp, hf, hc]
    | some kset =>
      cases hs : (kset (c.planning_context_.copyToKinematicState state) c.verbose_).satisfied <;>
      simp [isValidWithCache, isValidWithoutCache, hk, hb, hp, hf, hc, hs]

/-- C11: for a state with `validityKnown` and `goalDistanceKnown` unset, the
cached boolean check returns the same value as the uncached one, and the
cached distance check returns the same value and leaves the same `dist` as the
uncached one; hence `isValid`, in both overloads, answers the same whether the
planning context switches the cache on or off. -/
theorem cached_agrees_with_uncached (c : StateValidityChecker) (state : StateType)
    (dist : Double) (hk : state.isValidityKnown = false)
    (hg : state.isGoalDistanceKnown = false) :
    (c.isValidWithCache state).ret = (c.isValidWithoutCache state).ret ∧
      (c.isValidWithCache_dist state dist).ret = (c.isValidWithoutCache_dist state dist).ret ∧
      (c.isValidWithCache_dist state dist).dist = (c.isValidWithoutCache_dist state dist).dist ∧
      ((c.withCacheFlag true).isValid state).ret = ((c.withCacheFlag false).isValid state).ret ∧
      ((c.withCacheFlag true).isValid_dist state dist).ret
        = ((c.withCacheFlag false).isValid_dist state dist).ret ∧
      ((c.withCacheFlag true).isValid_dist state dist).dist
        = ((c.withCacheFlag false).isValid_dist state dist).dist := by
  have hb := isValidWithCache_of_miss c state hk
  have hd := isValidWithCache_dist_of_miss c state dist (by simp [hg])
  have e1 : (c.withCacheFlag true).isValid state = c.isValidWithCache state := rfl
  have e2 : (c.withCacheFlag false).isValid state = c.isValidWithoutCache state := rfl
  have e3 : (c.withCacheFlag true).isValid_dist state dist = c.isValidWithCache_dist state dist :=
    rfl
  have e4 : (c.withCacheFlag false).isValid_dist state dist
      = c.isValidWithoutCache_dist state dist := rfl
  rw [e1, e2, e3, e4]
  exact ⟨hb.1, hd.1, hd.2.1, hb.1, hd.1, hd.2.1⟩

/-- Witness for C11: the in-bounds, feasible state `0` with nothing memoized,
reported in collision with distance `-1`; with the cache on and off the
distance check returns false and leaves `-1` in `dist`. -/
theorem cached_agrees_with_uncached_witness :
    (Example.fresh 0).isValidityKnown = false ∧
      (Example.fresh 0).isGoalDistanceKnown = false ∧
      (((Example.checker true (Double.fin (-1)) true).withCacheFlag true).isValid_dist
        (Example.fresh 0) Double.posInf).dist = Double.fin (-1) ∧
      (((Example.checker true (Double.fin (-1)) true).withCacheFlag false).isValid_dist
        (Example.fresh 0) Double.posInf).dist = Double.fin (-1) :=
  ⟨by decide, by decide, by decide,
    (cached_agrees_with_uncached (Example.checker true (Double.fin (-1)) true) (Example.fresh 0)
      Double.posInf (by decide) (by decide)).2.2.2.2.2.symm.trans (by decide)⟩

/-- The calls of the uncached boolean check follow the stage order and stop at
the first failing stage. -/
theorem stopsAtFirstFailure_isValidWithoutCache (c : StateValidityChecker)
    (state : StateType) :
    stopsAtFirstFailure c state (c.isValidWithoutCache state).calls := by
  cases hb : c.planning_context_.satisfiesBounds state
  · cases hv : c.verbose_ <;>
    simp [stopsAtFirstFailure, inStageOrder, isValidWithoutCache, hb, hv, outsideBounds,
      countCalls, Call.rank, Call.isFeasibilityCall, Call.isCollisionCall]
  · cases hf : c.planning_context_.isStateFeasible
        (c.planning_context_.copyToKinematicState state) c.verbose_ <;>
    cases hp : c.planning_context_.getPathConstraints with
    | none =>
      simp [stopsAtFirstFailure, inStageOrder, isValidWithoutCache, hb, hp, hf, countCalls,
        Call.rank, Call.isFeasibilityCall, Call.isCollisionCall, constraintsPass, feasible,
        kstateOf]
    | some kset =>
      cases hs : (kset (c.planning_context_.copyToKinematicState state) c.verbose_).satisfied <;>
      simp [stopsAtFirstFailure, inStageOrder, isValidWithoutCache, hb, hp, hf, hs, countCalls,
        Call.rank, Call.isFeasibilityCall, Call.isCollisionCall, constraintsPass, feasible,
        kstateOf]

/-- The calls of the uncached distance check follow the stage order and stop
at the first failing stage. -/
theorem stopsAtFirstFailure_isValidWithoutCache_dist (c : StateValidityChecker)
    (state : StateType) (dist : Double) :
    stopsAtFirstFailure c state (c.isValidWithoutCache_dist state dist).calls := by
  cases hb : c.planning_context_.satisfiesBounds state
  · cases hv : c.verbose_ <;>
    simp [stopsAtFirstFailure, inStageOrder, isValidWithoutCache_dist, hb, hv, outsideBounds,
      countCalls, Call.rank, Call.isFeasibilityCall, Call.isCollisionCall]
  · cases hf : c.planning_context_.isStateFeasible
        (c.planning_context_.copyToKinematicState state) c.verbose_ <;>
    cases hp : c.planning_context_.getPathConstraints with
    | none =>
      simp [stopsAtFirstFailure, inStageOrder, isValidWithoutCache_dist, hb, hp, hf, countCalls,
        Call.rank, Call.isFeasibilityCall, Call.isCollisionCall, constraintsPass, feasible,
        kstateOf]
    | some kset =>
      cases hs : (kset (c.planning_context_.copyToKinematicState state) c.verbose_).satisfied <;>
      simp [stopsAtFirstFailure, inStageOrder, isValidWithoutCache_dist, hb, hp, hf, hs,
        countCalls, Call.rank, Call.isFeasibilityCall, Call.isCollisionCall, constraintsPass,
        feasible, kstateOf]

/-- C13: for every state, in bounds or not, in each of the four checks (the
cached ones entered without a memo hit) the calls follow the order bounds, path
constraints, feasibility, collision; if a present constraint set reports
unsatisfied, neither the feasibility predicate nor the collision backend is
called; if the feasibility predicate fails, the collision backend is not
called; and the collision backend is called at most once. -/
theorem stages_stop_at_first_failure (c : StateValidityChecker) (state : StateType)
    (dist : Double) :
    stopsAtFirstFailure c state (c.isValidWithoutCache state).calls ∧
      stopsAtFirstFailure c state (c.isValidWithoutCache_dist state dist).calls ∧
      (state.isValidityKnown = false →
        stopsAtFirstFailure c state (c.isValidWithCache state).calls) ∧
      ((state.isValidityKnown && state.isGoalDistanceKnown) = false →
        stopsAtFirstFailure c state (c.isValidWithCache_dist state dist).calls) := by
  refine ⟨stopsAtFirstFailure_isValidWithoutCache c state,
    stopsAtFirstFailure_isValidWithoutCache_dist c state dist, ?_, ?_⟩
  · intro hk
    rw [(isValidWithCache_of_miss c state hk).2]
    exact stopsAtFirstFailure_isValidWithoutCache c state
  · intro hm
    rw [(isValidWithCache_dist_of_miss c state dist hm).2.2]
    exact stopsAtFirstFailure_isValidWithoutCache_dist c state dist

/-- Witness for C13: in the constrained scene the in-bounds state `0` violates
the path constraints; the cached distance check calls neither the feasibility
predicate nor the collision backend. -/
theorem stages_stop_at_first_failure_witness :
    Example.constrainedChecker.planning_context_.satisfiesBounds (Example.fresh 0) = true ∧
      countCalls Call.isFeasibilityCall
        (Example.constrainedChecker.isValidWithCache_dist (Example.fresh 0)
          Double.posInf).calls = 0 ∧
      countCalls Call.isCollisionCall
        (Example.constrainedChecker.isValidWithCache_dist (Example.fresh 0)
          Double.posInf).calls = 0 :=
  ⟨by decide,
    (((stages_stop_at_first_failure Example.constrainedChecker (Example.fresh 0)
      Double.posInf).2.2.2 (by decide)).2.1 (by decide)).1,
    (((stages_stop_at_first_failure Example.constrainedChecker (Example.fresh 0)
      Double.posInf).2.2.2 (by decide)).2.1 (by decide)).2⟩

/-- With collaborators that ignore the verbosity they are passed, `isValidWithoutCache`
has the same outcome with the verbose flag set and cleared. -/
theorem verbose_isValidWithoutCache (c : StateValidityChecker) (state : StateType)
    (hk : ∀ kset, c.planning_context_.getPathConstraints = some kset →
      ∀ k, kset k true = kset k false)
    (hf : ∀ k, c.planning_context_.isStateFeasible k true
      = c.planning_context_.isStateFeasible k false)
    (hc : ∀ g d co k, c.planning_context_.checkCollision (CollisionRequest.mk g d co true) k
      = c.planning_context_.checkCollision (CollisionRequest.mk g d co false) k) :
    BoolRun.sameOutcome ((c.setVerbose true).isValidWithoutCache state)
      ((c.setVerbose false).isValidWithoutCache state) := by
  cases hb : c.planning_context_.satisfiesBounds state
  · simp [BoolRun.sameOutcome, collaboratorCalls, isValidWithoutCache, setVerbose, hb,
      outsideBounds, Call.isDiagnostic, Call.eraseVerbose]
  · cases hfe : c.planning_context_.isStateFeasible
        (c.planning_context_.copyToKinematicState state) false <;>
    cases hp : c.planning_context_.getPathConstraints with
    | none =>
      simp [BoolRun.sameOutcome, collaboratorCalls, isValidWithoutCache, setVerbose, hb, hp,
        hf, hfe, hc, Call.isDiagnostic, Call.eraseVerbose]
    | some kset =>
      have hk2 := hk kset hp
      cases hs : (kset (c.planning_context_.copyToKinematicState state) false).satisfied <;>
      simp [BoolRun.sameOutcome, collaboratorCalls, isValidWithoutCache, setVerbose, hb, hp,
        hf, hfe, hc, hk2, hs, Call.isDiagnostic, Call.eraseVerbose]

/-- With collaborators that ignore the verbosity they are passed, `isValidWithoutCache_dist`
has the same outcome with the verbose flag set and cleared. -/
theorem verbose_isValidWithoutCache_dist (c : StateValidityChecker) (state : StateType) (dist : Double)
    (hk : ∀ kset, c.planning_context_.getPathConstraints = some kset →
      ∀ k, kset k true = kset k false)
    (hf : ∀ k, c.planning_context_.isStateFeasible k true
      = c.planning_context_.isStateFeasible k false)
    (hc : ∀ g d co k, c.planning_context_.checkCollision (CollisionRequest.mk g d co true) k
      = c.planning_context_.checkCollision (CollisionRequest.mk g d co false) k) :
    DistRun.sameOutcome ((c.setVerbose true).isValidWithoutCache_dist state dist)
      ((c.setVerbose false).isValidWithoutCache_dist state dist) := by
  cases hb : c.planning_context_.satisfiesBounds state
  · simp [DistRun.sameOutcome, collaboratorCalls, isValidWithoutCache_dist, setVerbose, hb,
      outsideBounds, Call.isDiagnostic, Call.eraseVerbose]
  · cases hfe : c.planning_context_.isStateFeasible
        (c.planning_context_.copyToKinematicState state) false <;>
    cases hp : c.planning_context_.getPathConstraints with
    | none =>
      simp [DistRun.sameOutcome, collaboratorCalls, isValidWithoutCache_dist, setVerbose, hb, hp,
        hf, hfe, hc, Call.isDiagnostic, Call.eraseVerbose]
    | some kset =>
      have hk2 := hk kset hp
      cases hs : (kset (c.planning_context_.copyToKinematicState state) false).satisfied <;>
      simp [DistRun.sameOutcome, collaboratorCalls, isValidWithoutCache_dist, setVerbose, hb, hp,
        hf, hfe, hc, hk2, hs, Call.isDiagnostic, Call.eraseVerbose]

/-- With collaborators that ignore the verbosity they are passed, `isValidWithCache`
has the same outcome with the verbose flag set and cleared. -/
theorem verbose_isValidWithCache (c : StateValidityChecker) (state : StateType)
    (hk : ∀ kset, c.planning_context_.getPathConstraints = some kset →
      ∀ k, kset k true = kset k false)
    (hf : ∀ k, c.planning_context_.isStateFeasible k true
      = c.planning_context_.isStateFeasible k false)
    (hc : ∀ g d co k, c.planning_context_.checkCollision (CollisionRequest.mk g d co true) k
      = c.planning_context_.checkCollision (CollisionRequest.mk g d co false) k) :
    BoolRun.sameOutcome ((c.setVerbose true).isValidWithCache state)
      ((c.setVerbose false).isValidWithCache state) := by
  cases hm : state.isValidityKnown
  swap
  · simp [BoolRun.sameOutcome, collaboratorCalls, isValidWithCache, hm]
  cases hb : c.planning_context_.satisfiesBounds state
  · simp [BoolRun.sameOutcome, collaboratorCalls, isValidWithCache, setVerbose, hm, hb,
      outsideBounds, Call.isDiagnostic, Call.eraseVerbose]
  · cases hfe : c.planning_context_.isStateFeasible
        (c.planning_context_.copyToKinematicState state) false <;>
    cases hcol : (c.planning_context_.checkCollision
        (CollisionRequest.mk c.collision_request_simple_.group_name
          c.collision_request_simple_.distance c.collision_request_simple_.cost false)
        (c.planning_context_.copyToKinematicState state)).collision <;>
    cases hp : c.planning_context_.getPathConstraints with
    | none =>
      simp [BoolRun.sameOutcome, collaboratorCalls, isValidWithCache, setVerbose, hm, hb, hp,
        hf, hfe, hc, hcol, Call.isDiagnostic, Call.eraseVerbose]
    | some kset =>
      have hk2 := hk kset hp
      cases hs : (kset (c.planning_context_.copyToKinematicState state) false).satisfied <;>
      simp [BoolRun.sameOutcome, collaboratorCalls, isValidWithCache, setVerbose, hm, hb, hp,
        hf, hfe, hc, hk2, hs, hcol, Call.isDiagnostic, Call.eraseVerbose]

/-- With collaborators that ignore the verbosity they are passed, `isValidWithCache_dist`
has the same outcome with the verbose flag set and cleared. -/
theorem verbose_isValidWithCache_dist (c : StateValidityChecker) (state : StateType) (dist : Double)
    (hk : ∀ kset, c.planning_context_.getPathConstraints = some kset →
      ∀ k, kset k true = kset k false)
    (hf : ∀ k, c.planning_context_.isStateFeasible k true
      = c.planning_context_.isStateFeasible k false)
    (hc : ∀ g d co k, c.planning_context_.checkCollision (CollisionRequest.mk g d co true) k
      = c.planning_context_.checkCollision (CollisionRequest.mk g d co false) k) :
    DistRun.sameOutcome ((c.setVerbose true).isValidWithCache_dist state dist)
      ((c.setVerbose false).isValidWithCache_dist state dist) := by
  cases hm : (state.isValidityKnown && state.isGoalDistanceKnown)
  swap
  · simp [DistRun.sameOutcome, collaboratorCalls, isValidWithCache_dist, hm]
  cases hb : c.planning_context_.satisfiesBounds state
  · simp [DistRun.sameOutcome, collaboratorCalls, isValidWithCache_dist, setVerbose, hm, hb,
      outsideBounds, Call.isDiagnostic, Call.eraseVerbose]
  · cases hfe : c.planning_context_.isStateFeasible
        (c.planning_context_.copyToKinematicState state) false <;>
    cases hp : c.planning_context_.getPathConstraints with
    | none =>
      simp [DistRun.sameOutcome, collaboratorCalls, isValidWithCache_dist, setVerbose, hm, hb, hp,
        hf, hfe, hc, Call.isDiagnostic, Call.eraseVerbose]
    | some kset =>
      have hk2 := hk kset hp
      cases hs : (kset (c.planning_context_.copyToKinematicState state) false).satisfied <;>
      simp [DistRun.sameOutcome, collaboratorCalls, isValidWithCache_dist, setVerbose, hm, hb, hp,
        hf, hfe, hc, hk2, hs, Call.isDiagnostic, Call.eraseVerbose]

/-- C14: the verbose flag does not change the control flow.  With
collaborators whose results do not depend on the verbosity they are passed,
two runs of a check on the same state that differ only in the flag given to
`setVerbose` return the same value, leave the same `dist` and the same state
with its cache fields, and make the same sequence of collaborator calls; this
holds for the four underlying checks and for both overloads of `isValid`. -/
theorem verbose_keeps_control_flow (c : StateValidityChecker) (state : StateType)
    (dist : Double) (f1 f2 : Bool)
    (hk : ∀ kset, c.planning_context_.getPathConstraints = some kset →
      ∀ k v1 v2, kset k v1 = kset k v2)
    (hf : ∀ k v1 v2, c.planning_context_.isStateFeasible k v1
      = c.planning_context_.isStateFeasible k v2)
    (hc : ∀ g d co v1 v2 k,
      c.planning_context_.checkCollision (CollisionRequest.mk g d co v1) k
        = c.planning_context_.checkCollision (CollisionRequest.mk g d co v2) k) :
    BoolRun.sameOutcome ((c.setVerbose f1).isValidWithoutCache state)
        ((c.setVerbose f2).isValidWithoutCache state) ∧
      DistRun.sameOutcome ((c.setVerbose f1).isValidWithoutCache_dist state dist)
        ((c.setVerbose f2).isValidWithoutCache_dist state dist) ∧
      BoolRun.sameOutcome ((c.setVerbose f1).isValidWithCache state)
        ((c.setVerbose f2).isValidWithCache state) ∧
      DistRun.sameOutcome ((c.setVerbose f1).isValidWithCache_dist state dist)
        ((c.setVerbose f2).isValidWithCache_dist state dist) ∧
      BoolRun.sameOutcome ((c.setVerbose f1).isValid state) ((c.setVerbose f2).isValid state) ∧
      DistRun.sameOutcome ((c.setVerbose f1).isValid_dist state dist)
        ((c.setVerbose f2).isValid_dist state dist) := by
  have hk2 : ∀ kset, c.planning_context_.getPathConstraints = some kset →
      ∀ k, kset k true = kset k false := fun kset h k => hk kset h k true false
  have hf2 := fun k => hf k true false
  have hc2 := fun g d co k => hc g d co true false k
  have b1 := verbose_isValidWithoutCache c state hk2 hf2 hc2
  have b2 := verbose_isValidWithoutCache_dist c state dist hk2 hf2 hc2
  have b3 := verbose_isValidWithCache c state hk2 hf2 hc2
  have b4 := verbose_isValidWithCache_dist c state dist hk2 hf2 hc2
  have hbs : ∀ r1 r2 : BoolRun, r1.sameOutcome r2 → r2.sameOutcome r1 :=
    fun _ _ h => ⟨h.1.symm, h.2.1.symm, h.2.2.symm⟩
  have hds : ∀ r1 r2 : DistRun, r1.sameOutcome r2 → r2.sameOutcome r1 :=
    fun _ _ h => ⟨h.1.symm, h.2.1.symm, h.2.2.1.symm, h.2.2.2.symm⟩
  have hbr : ∀ r : BoolRun, r.sameOutcome r := fun _ => ⟨rfl, rfl, rfl⟩
  have hdr : ∀ r : DistRun, r.sameOutcome r := fun _ => ⟨rfl, rfl, rfl, rfl⟩
  have four : BoolRun.sameOutcome ((c.setVerbose f1).isValidWithoutCache state)
        ((c.setVerbose f2).isValidWithoutCache state) ∧
      DistRun.sameOutcome ((c.setVerbose f1).isValidWithoutCache_dist state dist)
        ((c.setVerbose f2).isValidWithoutCache_dist state dist) ∧
      BoolRun.sameOutcome ((c.setVerbose f1).isValidWithCache state)
        ((c.setVerbose f2).isValidWithCache state) ∧
      DistRun.sameOutcome ((c.setVerbose f1).isValidWithCache_dist state dist)
        ((c.setVerbose f2).isValidWithCache_dist state dist) := by
    cases f1 <;> cases f2
    · exact ⟨hbr _, hdr _, hbr _, hdr _⟩
    · exact ⟨hbs _ _ b1, hds _ _ b2, hbs _ _ b3, hds _ _ b4⟩
    · exact ⟨b1, b2, b3, b4⟩
    · exact ⟨hbr _, hdr _, hbr _, hdr _⟩
  refine ⟨four.1, four.2.1, four.2.2.1, four.2.2.2, ?_, ?_⟩
  · cases hu : c.planning_context_.useStateValidityCache
    · have e : ∀ f, (c.setVerbose f).isValid state = (c.setVerbose f).isValidWithoutCache state :=
        fun f => by simp [isValid, setVerbose, hu]
      rw [e f1, e f2]
      exact four.1
    · have e : ∀ f, (c.setVerbose f).isValid state = (c.setVerbose f).isValidWithCache state :=
        fun f => by simp [isValid, setVerbose, hu]
      rw [e f1, e f2]
      exact four.2.2.1
  · cases hu : c.planning_context_.useStateValidityCache
    · have e : ∀ f, (c.setVerbose f).isValid_dist state dist
          = (c.setVerbose f).isValidWithoutCache_dist state dist :=
        fun f => by simp [isValid_dist, setVerbose, hu]
      rw [e f1, e f2]
      exact four.2.1
    · have e : ∀ f, (c.setVerbose f).isValid_dist state dist
          = (c.setVerbose f).isValidWithCache_dist state dist :=
        fun f => by simp [isValid_dist, setVerbose, hu]
      rw [e f1, e f2]
      exact four.2.2.2

/-- Witness for C14: in the constrained scene, whose constraint set, feasibility
predicate and collision backend ignore the verbosity, the verbose and the
silent distance check of the state `0` leave the same `dist`, here `7`. -/
theorem verbose_keeps_control_flow_witness :
    ((Example.constrainedChecker.setVerbose true).isValid_dist (Example.fresh 0)
        Double.posInf).dist = Double.fin 7 ∧
      ((Example.constrainedChecker.setVerbose false).isValid_dist (Example.fresh 0)
        Double.posInf).dist = Double.fin 7 :=
  ⟨(verbose_keeps_control_flow Example.constrainedChecker (Example.fresh 0) Double.posInf
      true false
      (fun _ h _ _ _ => by cases h; rfl) (fun _ _ _ => rfl) (fun _ _ _ _ _ _ => rfl)).2.2.2.2.2.2.1.trans
      (by decide),
    by decide⟩

/-- C15 as stated fails on a memo hit: in a scene where no state is feasible,
the in-bounds state `0` memoized as invalid with the distance `3` comes back
from the cached distance check with `3` in `dist`, not `0.0`. -/
theorem isValidWithCache_dist_infeasible_memo :
    Example.infeasibleChecker.planning_context_.satisfiesBounds (Example.memoized 0) = true ∧
      Example.infeasibleChecker.constraintsPass (Example.memoized 0) = true ∧
      Example.infeasibleChecker.feasible (Example.memoized 0) = false ∧
      (Example.infeasibleChecker.isValidWithCache_dist (Example.memoized 0) Double.posInf).dist
        = Double.fin 3 ∧
      (Example.infeasibleChecker.isValidWithCache_dist (Example.memoized 0) Double.posInf).dist
        ≠ Double.zero := by
  decide

/-- C15, amended: for an in-bounds state whose constraints pass or are absent
and whose feasibility predicate fails, the uncached distance check returns
false without a collision call; the cached distance check, entered without a
memo hit, returns false with `dist = 0.0`, makes no collision call and leaves
every cache field of the state as it was. -/
theorem feasibility_failure_dist (c : StateValidityChecker) (state : StateType) (dist : Double)
    (hb : c.planning_context_.satisfiesBounds state = true)
    (hcp : c.constraintsPass state = true) (hf : c.feasible state = false) :
    ((c.isValidWithoutCache_dist state dist).ret = false ∧
        countCalls Call.isCollisionCall (c.isValidWithoutCache_dist state dist).calls = 0) ∧
      ((state.isValidityKnown && state.isGoalDistanceKnown) = false →
        (c.isValidWithCache_dist state dist).ret = false ∧
          (c.isValidWithCache_dist state dist).dist = Double.zero ∧
          countCalls Call.isCollisionCall (c.isValidWithCache_dist state dist).calls = 0 ∧
          (c.isValidWithCache_dist state dist).state = state) := by
  simp only [feasible, kstateOf] at hf
  cases hp : c.planning_context_.getPathConstraints with
  | none =>
    refine ⟨?_, ?_⟩
    · simp [isValidWithoutCache_dist, hb, hp, hf, countCalls, Call.isCollisionCall]
    · intro hm
      simp [isValidWithCache_dist, hm, hb, hp, hf, countCalls, Call.isCollisionCall]
  | some kset =>
    simp only [constraintsPass, kstateOf, hp] at hcp
    refine ⟨?_, ?_⟩
    · simp [isValidWithoutCache_dist, hb, hp, hf, hcp, countCalls, Call.isCollisionCall]
    · intro hm
      simp [isValidWithCache_dist, hm, hb, hp, hf, hcp, countCalls, Call.isCollisionCall]

/-- Witness for C15, amended: the in-bounds state `0` with nothing memoized in
the scene where no state is feasible. -/
theorem feasibility_failure_dist_witness :
    (Example.infeasibleChecker.isValidWithCache_dist (Example.fresh 0) Double.posInf).dist
        = Double.zero ∧
      (Example.infeasibleChecker.isValidWithCache_dist (Example.fresh 0) Double.posInf).state
        = Example.fresh 0 :=
  ⟨((feasibility_failure_dist Example.infeasibleChecker (Example.fresh 0) Double.posInf
      (by decide) (by decide) (by decide)).2 (by decide)).2.1,
    ((feasibility_failure_dist Example.infeasibleChecker (Example.fresh 0) Double.posInf
      (by decide) (by decide) (by decide)).2 (by decide)).2.2.2⟩

/-- C16 as stated fails: the out-of-bounds state `2`, once checked by the
cached boolean check, has `validityKnown` set and `goalDistanceKnown` unset;
the cached distance check of that state writes its cache fields again and
leaves `goalDistanceKnown` set. -/
theorem isValidWithCache_dist_rewrites_known_state :
    ((Example.checker false (Double.fin 1) true).isValidWithCache
        (Example.fresh 2)).state.isValidityKnown = true ∧
      ((Example.checker false (Double.fin 1) true).isValidWithCache
        (Example.fresh 2)).state.isGoalDistanceKnown = false ∧
      ((Example.checker false (Double.fin 1) true).isValidWithCache_dist
        ((Example.checker false (Double.fin 1) true).isValidWithCache (Example.fresh 2)).state
        Double.posInf).state.isGoalDistanceKnown = true ∧
      ((Example.checker false (Double.fin 1) true).isValidWithCache_dist
        ((Example.checker false (Double.fin 1) true).isValidWithCache (Example.fresh 2)).state
        Double.posInf).state
        ≠ ((Example.checker false (Double.fin 1) true).isValidWithCache
          (Example.fresh 2)).state := by
  decide

/-- C16, amended: a memo hit writes no cache field.  A state entering the
cached boolean check with `validityKnown` set, or the cached distance check
with `validityKnown` and `goalDistanceKnown` set, comes back unchanged.  And
for a state with `validityKnown` unset the outcome does not depend on its
`markedValid` value: given collaborators that do not look at that field,
changing it to any `b` changes neither the run of the boolean check nor the
returned value, `dist` or calls of the distance check, whose final state
differs at most in `markedValid`. -/
theorem memo_hit_writes_nothing (c : StateValidityChecker) (state : StateType) (dist : Double)
    (b : Bool) :
    (state.isValidityKnown = true → (c.isValidWithCache state).state = state) ∧
      (state.isValidityKnown = true → state.isGoalDistanceKnown = true →
        (c.isValidWithCache_dist state dist).state = state) ∧
      (state.isValidityKnown = false →
        c.planning_context_.satisfiesBounds { state with markedValid := b }
          = c.planning_context_.satisfiesBounds state →
        c.planning_context_.copyToKinematicState { state with markedValid := b }
          = c.planning_context_.copyToKinematicState state →
        c.isValidWithCache { state with markedValid := b } = c.isValidWithCache state ∧
          (c.isValidWithCache_dist { state with markedValid := b } dist).ret
            = (c.isValidWithCache_dist state dist).ret ∧
          (c.isValidWithCache_dist { state with markedValid := b } dist).dist
            = (c.isValidWithCache_dist state dist).dist ∧
          (c.isValidWithCache_dist { state with markedValid := b } dist).calls
            = (c.isValidWithCache_dist state dist).calls ∧
          { (c.isValidWithCache_dist { state with markedValid := b } dist).state with
              markedValid := false }
            = { (c.isValidWithCache_dist state dist).state with markedValid := false }) := by
  refine ⟨?_, ?_, ?_⟩
  · intro hk
    rw [isValidWithCache_of_known c state hk]
  · intro hk hg
    simp [isValidWithCache_dist, hk, hg]
  · intro hk hsb hcp
    obtain ⟨vals, vk, mv, gdk, d⟩ := state
    have hk2 : vk = false := hk
    subst hk2
    simp only at hsb hcp
    cases hb : c.planning_context_.satisfiesBounds
        { values := vals, validityKnown := false, markedValid := mv, goalDistanceKnown := gdk,
          distance := d }
    · simp [isValidWithCache, isValidWithCache_dist, hsb, hcp, hb, StateType.isValidityKnown,
        StateType.isGoalDistanceKnown, StateType.markInvalid, StateType.markInvalidDist]
    · cases hf : c.planning_context_.isStateFeasible
          (c.planning_context_.copyToKinematicState
            { values := vals, validityKnown := false, markedValid := mv,
              goalDistanceKnown := gdk, distance := d }) c.verbose_ <;>
      cases hcol : (c.planning_context_.checkCollision c.collision_request_simple_
          (c.planning_context_.copyToKinematicState
            { values := vals, validityKnown := false, markedValid := mv,
              goalDistanceKnown := gdk, distance := d })).collision <;>
      cases hp : c.planning_context_.getPathConstraints with
      | none =>
        simp [isValidWithCache, isValidWithCache_dist, hsb, hcp, hb, hp, hf, hcol,
          StateType.isValidityKnown, StateType.isGoalDistanceKnown, StateType.markInvalid,
          StateType.markValid, StateType.markInvalidDist]
      | some kset =>
        cases hs : (kset (c.planning_context_.copyToKinematicState
            { values := vals, validityKnown := false, markedValid := mv,
              goalDistanceKnown := gdk, distance := d }) c.verbose_).satisfied <;>
        simp [isValidWithCache, isValidWithCache_dist, hsb, hcp, hb, hp, hf, hcol, hs,
          StateType.isValidityKnown, StateType.isGoalDistanceKnown, StateType.markInvalid,
          StateType.markValid, StateType.markInvalidDist]

/-- Witness for C16, amended: the state `0` memoized as invalid with the
distance `3` comes back unchanged from both cached checks. -/
theorem memo_hit_writes_nothing_witness :
    ((Example.checker false (Double.fin 1) true).isValidWithCache (Example.memoized 0)).state
        = Example.memoized 0 ∧
      ((Example.checker false (Double.fin 1) true).isValidWithCache_dist (Example.memoized 0)
        Double.posInf).state = Example.memoized 0 :=
  ⟨(memo_hit_writes_nothing (Example.checker false (Double.fin 1) true) (Example.memoized 0)
      Double.posInf true).1 (by decide),
    (memo_hit_writes_nothing (Example.checker false (Double.fin 1) true) (Example.memoized 0)
      Double.posInf true).2.1 (by decide) (by decide)⟩

/-- C17: after construction from a planning context the three request
templates carry the context's joint-model-group name, the with-distance
template has `distance` set, the with-cost template has `cost` set and the
checker's verbose flag is false; `setVerbose` changes none of the group names
and neither the `distance` nor the `cost` mode of any template. -/
theorem constructor_binds_templates (pc : ModelBasedPlanningContext)
    (c : StateValidityChecker) (flag : Bool) :
    ((new pc).collision_request_simple_.group_name = pc.getJointModelGroupName ∧
        (new pc).collision_request_with_distance_.group_name = pc.getJointModelGroupName ∧
        (new pc).collision_request_with_cost_.group_name = pc.getJointModelGroupName ∧
        (new pc).collision_request_with_distance_.distance = true ∧
        (new pc).collision_request_with_cost_.cost = true ∧
        (new pc).verbose_ = false) ∧
      ((c.setVerbose flag).collision_request_simple_.group_name
          = c.collision_request_simple_.group_name ∧
        (c.setVerbose flag).collision_request_with_distance_.group_name
          = c.collision_request_with_distance_.group_name ∧
        (c.setVerbose flag).collision_request_with_cost_.group_name
          = c.collision_request_with_cost_.group_name) ∧
      ((c.setVerbose flag).collision_request_simple_.distance
          = c.collision_request_simple_.distance ∧
        (c.setVerbose flag).collision_request_with_distance_.distance
          = c.collision_request_with_distance_.distance ∧
        (c.setVerbose flag).collision_request_with_cost_.distance
          = c.collision_request_with_cost_.distance) ∧
      ((c.setVerbose flag).collision_request_simple_.cost = c.collision_request_simple_.cost ∧
        (c.setVerbose flag).collision_request_with_distance_.cost
          = c.collision_request_with_distance_.cost ∧
        (c.setVerbose flag).collision_request_with_cost_.cost
          = c.collision_request_with_cost_.cost) :=
  ⟨⟨rfl, rfl, rfl, rfl, rfl, rfl⟩, ⟨rfl, rfl, rfl⟩, ⟨rfl, rfl, rfl⟩, ⟨rfl, rfl, rfl⟩⟩

/-- C18: on a bounds failure neither distance check writes `dist`.  For an
out-of-bounds state and any initial value `d0`, the uncached distance check
returns false with `dist` still `d0`, and so does the cached one when entered
without a memo hit; but the cached one records the distance `0.0` on the state
with `goalDistanceKnown` set, so that a second cached call on that state is
answered from the memo with `dist = 0.0`. -/
theorem bounds_failure_leaves_dist (c : StateValidityChecker) (state : StateType) (d0 : Double)
    (hb : c.planning_context_.satisfiesBounds state = false) :
    ((c.isValidWithoutCache_dist state d0).ret = false ∧
        (c.isValidWithoutCache_dist state d0).dist = d0) ∧
      ((state.isValidityKnown && state.isGoalDistanceKnown) = false →
        (c.isValidWithCache_dist state d0).ret = false ∧
          (c.isValidWithCache_dist state d0).dist = d0 ∧
          (c.isValidWithCache_dist state d0).state.distance = Double.zero ∧
          (c.isValidWithCache_dist state d0).state.isGoalDistanceKnown = true ∧
          (c.isValidWithCache_dist (c.isValidWithCache_dist state d0).state
            (c.isValidWithCache_dist state d0).dist).ret = false ∧
          (c.isValidWithCache_dist (c.isValidWithCache_dist state d0).state
            (c.isValidWithCache_dist state d0).dist).dist = Double.zero ∧
          (c.isValidWithCache_dist (c.isValidWithCache_dist state d0).state
            (c.isValidWithCache_dist state d0).dist).calls = []) := by
  refine ⟨?_, ?_⟩
  · simp [isValidWithoutCache_dist, hb]
  · intro hm
    have h1 : c.isValidWithCache_dist state d0
        = { ret := false, dist := d0, state := state.markInvalidDist Double.zero
            calls := c.outsideBounds } := by
      simp [isValidWithCache_dist, hm, hb]
    rw [h1]
    simp [isValidWithCache_dist, StateType.markInvalidDist, StateType.markInvalid,
      StateType.isValidityKnown, StateType.isGoalDistanceKnown, StateType.isMarkedValid]

/-- Witness for C18: the out-of-bounds state `2` with nothing memoized and the
initial value `+infinity` in `dist`; the first cached call leaves `+infinity`,
the second yields `0.0`. -/
theorem bounds_failure_leaves_dist_witness :
    ((Example.checker false (Double.fin 1) true).isValidWithCache_dist (Example.fresh 2)
        Double.posInf).dist = Double.posInf ∧
      ((Example.checker false (Double.fin 1) true).isValidWithCache_dist
        ((Example.checker false (Double.fin 1) true).isValidWithCache_dist (Example.fresh 2)
          Double.posInf).state
        ((Example.checker false (Double.fin 1) true).isValidWithCache_dist (Example.fresh 2)
          Double.posInf).dist).dist = Double.zero :=
  ⟨((bounds_failure_leaves_dist (Example.checker false (Double.fin 1) true) (Example.fresh 2)
      Double.posInf (by decide)).2 (by decide)).2.1,
    ((bounds_failure_leaves_dist (Example.checker false (Double.fin 1) true) (Example.fresh 2)
      Double.posInf (by decide)).2 (by decide)).2.2.2.2.2.1⟩

/-- Entered without a memo hit by a state that passes the first three stages,
the cached distance check asks the collision backend once, returns whether no
collision is reported and leaves the state as it was. -/
theorem isValidWithCache_dist_at_collision (c : StateValidityChecker) (state : StateType)
    (dist : Double) (hm : (state.isValidityKnown && state.isGoalDistanceKnown) = false)
    (hr : c.reachesCollision state = true) :
    (c.isValidWithCache_dist state dist).state = state ∧
      countCalls Call.isCollisionCall (c.isValidWithCache_dist state dist).calls = 1 ∧
      (c.isValidWithCache_dist state dist).ret
        = !(c.collisionResult c.collision_request_with_distance_ state).collision := by
  simp only [reachesCollision, inBounds, feasible, kstateOf, Bool.and_eq_true] at hr
  obtain ⟨⟨hb, hcp⟩, hf⟩ := hr
  cases hp : c.planning_context_.getPathConstraints with
  | none =>
    simp [isValidWithCache_dist, hm, hb, hp, hf, countCalls, Call.isCollisionCall,
      collisionResult, kstateOf]
  | some kset =>
    simp only [constraintsPass, kstateOf, hp] at hcp
    simp [isValidWithCache_dist, hm, hb, hp, hf, hcp, countCalls, Call.isCollisionCall,
      collisionResult, kstateOf]

/-- The cached distance check leaves the state known-valid only if it was so
before. -/
theorem isValidWithCache_dist_never_marks_valid (c : StateValidityChecker) (state : StateType)
    (dist : Double)
    (hv : (c.isValidWithCache_dist state dist).state.isValidityKnown = true ∧
      (c.isValidWithCache_dist state dist).state.isMarkedValid = true) :
    state.isValidityKnown = true ∧ state.isMarkedValid = true := by
  revert hv
  cases hm : (state.isValidityKnown && state.isGoalDistanceKnown)
  swap
  · simp [isValidWithCache_dist, hm]
  cases hb : c.planning_context_.satisfiesBounds state
  · simp [isValidWithCache_dist, hm, hb, StateType.markInvalidDist, StateType.markInvalid,
      StateType.isMarkedValid]
  · cases hf : c.planning_context_.isStateFeasible
        (c.planning_context_.copyToKinematicState state) c.verbose_ <;>
    cases hp : c.planning_context_.getPathConstraints with
    | none => simp [isValidWithCache_dist, hm, hb, hp, hf]
    | some kset =>
      cases hs : (kset (c.planning_context_.copyToKinematicState state) c.verbose_).satisfied <;>
      simp [isValidWithCache_dist, hm, hb, hp, hf, hs, StateType.markInvalidDist,
        StateType.markInvalid, StateType.isMarkedValid]

/-- Repeating the cached distance check on a state that reaches the collision
stage without a memo hit never changes the state, and every repetition asks
the collision backend. -/
theorem repeatedCheck_at_collision (c : StateValidityChecker) (state : StateType)
    (dist : Double) (hm : (state.isValidityKnown && state.isGoalDistanceKnown) = false)
    (hr : c.reachesCollision state = true) (n : Nat) :
    (c.repeatedCheck state dist n).state = state ∧
      countCalls Call.isCollisionCall (c.repeatedCheck state dist n).calls = 1 := by
  induction n with
  | zero =>
    have h := isValidWithCache_dist_at_collision c state dist hm hr
    exact ⟨h.1, h.2.1⟩
  | succ n ih =>
    have h := isValidWithCache_dist_at_collision c state (c.repeatedCheck state dist n).dist hm hr
    simp only [repeatedCheck]
    rw [ih.1]
    exact ⟨h.1, h.2.1⟩

/-- C19: the cached distance check never marks a state valid.  After the call
the state is known-valid only if it was known-valid before.  Whenever the call
reaches the collision stage, the cache fields are left exactly as they were,
whatever the collision backend reports, so that every repetition of the check
asks the collision backend again; in particular for a collision-free state,
for which the call returns true. -/
theorem isValidWithCache_dist_marks_nothing_valid (c : StateValidityChecker)
    (state : StateType) (dist : Double) (n : Nat) :
    (((c.isValidWithCache_dist state dist).state.isValidityKnown = true ∧
          (c.isValidWithCache_dist state dist).state.isMarkedValid = true) →
        state.isValidityKnown = true ∧ state.isMarkedValid = true) ∧
      ((state.isValidityKnown && state.isGoalDistanceKnown) = false →
        c.reachesCollision state = true →
        (c.isValidWithCache_dist state dist).state = state ∧
          countCalls Call.isCollisionCall (c.isValidWithCache_dist state dist).calls = 1 ∧
          ((c.collisionResult c.collision_request_with_distance_ state).collision = false →
            (c.isValidWithCache_dist state dist).ret = true) ∧
          (c.repeatedCheck state dist n).state = state ∧
          countCalls Call.isCollisionCall (c.repeatedCheck state dist n).calls = 1) := by
  refine ⟨isValidWithCache_dist_never_marks_valid c state dist, ?_⟩
  intro hm hr
  have h := isValidWithCache_dist_at_collision c state dist hm hr
  have hrep := repeatedCheck_at_collision c state dist hm hr n
  refine ⟨h.1, h.2.1, ?_, hrep.1, hrep.2⟩
  intro hc
  rw [h.2.2, hc]
  rfl

/-- Witness for C19: the in-bounds, feasible, collision-free state `0` with
nothing memoized; the check returns true, the state comes back as it was, and
the fourth check in a row still asks the collision backend. -/
theorem isValidWithCache_dist_marks_nothing_valid_witness :
    ((Example.checker false (Double.fin 1) true).isValidWithCache_dist (Example.fresh 0)
        Double.posInf).state = Example.fresh 0 ∧
      ((Example.checker false (Double.fin 1) true).isValidWithCache_dist (Example.fresh 0)
        Double.posInf).ret = true ∧
      countCalls Call.isCollisionCall
        ((Example.checker false (Double.fin 1) true).repeatedCheck (Example.fresh 0)
          Double.posInf 3).calls = 1 :=
  ⟨((isValidWithCache_dist_marks_nothing_valid (Example.checker false (Double.fin 1) true)
      (Example.fresh 0) Double.posInf 3).2 (by decide) (by decide)).1,
    ((isValidWithCache_dist_marks_nothing_valid (Example.checker false (Double.fin 1) true)
      (Example.fresh 0) Double.posInf 3).2 (by decide) (by decide)).2.2.1 (by decide),
    ((isValidWithCache_dist_marks_nothing_valid (Example.checker false (Double.fin 1) true)
      (Example.fresh 0) Double.posInf 3).2 (by decide) (by decide)).2.2.2.2⟩

end StateValidityChecker

namespace ModelBasedJointStateSpace

/-- The half width of the canonical range is positive. -/
theorem M_PI_pos : 0 < M_PI := by
  norm_num [M_PI]

/-- The tolerance of `satisfiesBounds` is not negative. -/
theorem boundsTolerance_nonneg : 0 ≤ boundsTolerance := by
  norm_num [boundsTolerance]

/-- A wrapped value lies in the canonical range. -/
theorem wrapAngle_range (v : ℚ) : -M_PI ≤ wrapAngle v ∧ wrapAngle v < M_PI := by
  have hp : (0 : ℚ) < 2 * M_PI := by linarith [M_PI_pos]
  have h1 := Int.floor_le ((v + M_PI) / (2 * M_PI))
  have h2 := Int.lt_floor_add_one ((v + M_PI) / (2 * M_PI))
  rw [le_div_iff₀ hp] at h1
  rw [div_lt_iff₀ hp] at h2
  unfold wrapAngle
  constructor <;> nlinarith

/-- A value of the canonical range is left as it is by wrapping. -/
theorem wrapAngle_of_mem (v : ℚ) (h1 : -M_PI ≤ v) (h2 : v < M_PI) : wrapAngle v = v := by
  have hp : (0 : ℚ) < 2 * M_PI := by linarith [M_PI_pos]
  have hz : ⌊(v + M_PI) / (2 * M_PI)⌋ = 0 := by
    rw [Int.floor_eq_iff]
    constructor
    · simp only [Int.cast_zero]
      apply div_nonneg <;> linarith
    · rw [div_lt_iff₀ hp]
      simp only [Int.cast_zero]
      linarith
  simp [wrapAngle, hz]

/-- Wrapping does not raise a value that is not below the canonical range. -/
theorem wrapAngle_le_self (v : ℚ) (h1 : -M_PI ≤ v) : wrapAngle v ≤ v := by
  have hp : (0 : ℚ) < 2 * M_PI := by linarith [M_PI_pos]
  have hk : (0 : ℤ) ≤ ⌊(v + M_PI) / (2 * M_PI)⌋ := by
    rw [Int.floor_nonneg]
    apply div_nonneg <;> linarith
  have hk2 : (0 : ℚ) ≤ ((⌊(v + M_PI) / (2 * M_PI)⌋ : ℤ) : ℚ) := by exact_mod_cast hk
  unfold wrapAngle
  nlinarith

/-- Wrapping does not lower a value that is below the upper end of the
canonical range. -/
theorem self_le_wrapAngle (v : ℚ) (h2 : v < M_PI) : v ≤ wrapAngle v := by
  have hp : (0 : ℚ) < 2 * M_PI := by linarith [M_PI_pos]
  have hk : ⌊(v + M_PI) / (2 * M_PI)⌋ ≤ (0 : ℤ) := by
    rw [Int.floor_le_iff, div_lt_iff₀ hp]
    simp only [Int.cast_zero]
    linarith
  have hk2 : ((⌊(v + M_PI) / (2 * M_PI)⌋ : ℤ) : ℚ) ≤ 0 := by exact_mod_cast hk
  unfold wrapAngle
  nlinarith

/-- A clamped value lies in the interval. -/
theorem clamp_mem (lo hi v : ℚ) (h : lo ≤ hi) : lo ≤ clamp lo hi v ∧ clamp lo hi v ≤ hi := by
  unfold clamp
  split
  · exact ⟨le_refl _, h⟩
  · split
    · exact ⟨h, le_refl _⟩
    · constructor <;> linarith

/-- A value of the interval is left as it is by clamping. -/
theorem clamp_of_mem (lo hi v : ℚ) (h1 : lo ≤ v) (h2 : v ≤ hi) : clamp lo hi v = v := by
  unfold clamp
  rw [if_neg (not_lt.mpr h1), if_neg (not_lt.mpr h2)]

/-- Enforcing the bounds of one dimension twice gives what enforcing them once
gives. -/
theorem enforceDimension_idem (r : Bool) (b : ℚ × ℚ) (v : ℚ) (h : b.1 ≤ b.2) :
    enforceDimension r b (enforceDimension r b v) = enforceDimension r b v := by
  cases r
  · simp only [enforceDimension, Bool.false_eq_true, if_false]
    exact clamp_of_mem _ _ _ (clamp_mem _ _ v h).1 (clamp_mem _ _ v h).2
  · simp only [enforceDimension, if_true]
    obtain ⟨hw1, hw2⟩ := wrapAngle_range v
    by_cases hlo : wrapAngle v < b.1
    · have e : clamp b.1 b.2 (wrapAngle v) = b.1 := by simp [clamp, hlo]
      rw [e]
      have hle := wrapAngle_le_self b.1 (by linarith)
      unfold clamp
      by_cases hlt : wrapAngle b.1 < b.1
      · rw [if_pos hlt]
      · rw [if_neg hlt]
        have heq : wrapAngle b.1 = b.1 := le_antisymm hle (not_lt.mp hlt)
        rw [heq, if_neg (not_lt.mpr h)]
    · by_cases hhi : b.2 < wrapAngle v
      · have e : clamp b.1 b.2 (wrapAngle v) = b.2 := by simp [clamp, hlo, hhi]
        rw [e]
        have hge := self_le_wrapAngle b.2 (by linarith)
        unfold clamp
        rw [if_neg (not_lt.mpr (le_trans h hge))]
        by_cases hlt : b.2 < wrapAngle b.2
        · rw [if_pos hlt]
        · rw [if_neg hlt]
          exact le_antisymm (not_lt.mp hlt) hge
      · have e : clamp b.1 b.2 (wrapAngle v) = wrapAngle v := by simp [clamp, hlo, hhi]
        rw [e, wrapAngle_of_mem _ hw1 hw2, e]

/-- Enforcing the bounds of one dimension gives a value of the bound
interval. -/
theorem enforceDimension_mem (r : Bool) (b : ℚ × ℚ) (v : ℚ) (h : b.1 ≤ b.2) :
    b.1 ≤ enforceDimension r b v ∧ enforceDimension r b v ≤ b.2 :=
  clamp_mem _ _ _ h

/-- Enforcing the bounds dimension by dimension twice gives what enforcing them
once gives. -/
theorem enforceAll_idem (rs : List Bool) (bs : List (ℚ × ℚ)) (vs : List ℚ)
    (h : ∀ b ∈ bs, b.1 ≤ b.2) :
    enforceAll rs bs (enforceAll rs bs vs) = enforceAll rs bs vs := by
  induction rs generalizing bs vs with
  | nil => simp [enforceAll]
  | cons r rs ih =>
    cases bs with
    | nil => simp [enforceAll]
    | cons b bs =>
      cases vs with
      | nil => simp [enforceAll]
      | cons v vs =>
        simp only [enforceAll]
        rw [enforceDimension_idem r b v (h b (List.mem_cons_self _ _)),
          ih bs vs (fun x hx => h x (List.mem_cons_of_mem _ hx))]

/-- After enforcing the bounds every value lies within its bound interval, up
to any tolerance that is not negative. -/
theorem satisfiesAll_enforceAll (margin : ℚ) (hm : 0 ≤ margin) (rs : List Bool)
    (bs : List (ℚ × ℚ)) (vs : List ℚ) (h : ∀ b ∈ bs, b.1 ≤ b.2) :
    satisfiesAll margin bs (enforceAll rs bs vs) = true := by
  induction rs generalizing bs vs with
  | nil => cases bs <;> simp [enforceAll, satisfiesAll]
  | cons r rs ih =>
    cases bs with
    | nil => simp [enforceAll, satisfiesAll]
    | cons b bs =>
      cases vs with
      | nil => simp [enforceAll, satisfiesAll]
      | cons v vs =>
        obtain ⟨h1, h2⟩ := enforceDimension_mem r b v (h b (List.mem_cons_self _ _))
        simp only [enforceAll, satisfiesAll, Bool.and_eq_true, decide_eq_true_eq]
        exact ⟨⟨by linarith, by linarith⟩, ih bs vs (fun x hx => h x (List.mem_cons_of_mem _ hx))⟩

/-- Enforcing the bounds keeps the number of dimensions when the flags, the
bounds and the values have the same length. -/
theorem length_enforceAll (rs : List Bool) (bs : List (ℚ × ℚ)) (vs : List ℚ)
    (hb : bs.length = rs.length) (hv : vs.length = rs.length) :
    (enforceAll rs bs vs).length = rs.length := by
  induction rs generalizing bs vs with
  | nil => simp [enforceAll]
  | cons r rs ih =>
    cases bs with
    | nil => simp at hb
    | cons b bs =>
      cases vs with
      | nil => simp at hv
      | cons v vs =>
        simp only [enforceAll, List.length_cons, add_left_inj] at hb hv ⊢
        exact ih bs vs hb hv

/-- In the single-revolute-joint space with the bounds `[-1, 1]` enforcing the
bounds turns the state `1.5` into `1.0`. -/
theorem enforceBounds_revolute :
    revolute.enforceBounds { joint_state := [3 / 2] } = { joint_state := [1] } := by
  have hw : wrapAngle (3 / 2) = 3 / 2 :=
    wrapAngle_of_mem _ (by norm_num [M_PI]) (by norm_num [M_PI])
  simp only [enforceBounds, revolute, enforceAll, enforceDimension, if_true, hw, clamp]
  norm_num

/-- C12: in a joint state space whose bound intervals have `min ≤ max`,
`enforceBounds` clamps each dimension into its bound interval, keeps the
number of dimensions of a state of the space, is idempotent, and its result
satisfies `satisfiesBounds`.  In the single-revolute-joint space with the
bounds `[-1, 1]` the state `1.5` fails `satisfiesBounds` and `enforceBounds`
turns it into `1.0`. -/
theorem enforceBounds_idempotent (space : ModelBasedJointStateSpace) (s : StateType)
    (hb : ∀ b ∈ space.joint_bounds_, b.1 ≤ b.2) :
    space.enforceBounds (space.enforceBounds s) = space.enforceBounds s ∧
      space.satisfiesBounds (space.enforceBounds s) = true ∧
      space.withinBounds (space.enforceBounds s) = true ∧
      (space.joint_bounds_.length = space.getDimension →
        s.joint_state.length = space.getDimension →
        (space.enforceBounds s).joint_state.length = space.getDimension) ∧
      revolute.satisfiesBounds { joint_state := [3 / 2] } = false ∧
      revolute.enforceBounds { joint_state := [3 / 2] } = { joint_state := [1] } := by
  refine ⟨?_, ?_, ?_, ?_, ?_, enforceBounds_revolute⟩
  · simp only [enforceBounds]
    rw [enforceAll_idem _ _ _ hb]
  · exact satisfiesAll_enforceAll boundsTolerance boundsTolerance_nonneg _ _ _ hb
  · exact satisfiesAll_enforceAll 0 (le_refl _) _ _ _ hb
  · intro h1 h2
    exact length_enforceAll _ _ _ h1 h2
  · simp only [satisfiesBounds, revolute, satisfiesAll, boundsTolerance]
    norm_num

/-- Witness for C12: the single-revolute-joint space with the bounds `[-1, 1]`
and the state `1.5`, which `enforceBounds` brings to `1.0`, where it stays
and satisfies the bounds. -/
theorem enforceBounds_idempotent_witness :
    (∀ b ∈ revolute.joint_bounds_, b.1 ≤ b.2) ∧
      revolute.enforceBounds (revolute.enforceBounds { joint_state := [3 / 2] })
        = { joint_state := [1] } ∧
      revolute.satisfiesBounds (revolute.enforceBounds { joint_state := [3 / 2] }) = true :=
  ⟨by simp [revolute],
    ((enforceBounds_idempotent revolute { joint_state := [3 / 2] }
      (by simp [revolute])).1).trans enforceBounds_revolute,
    (enforceBounds_idempotent revolute { joint_state := [3 / 2] } (by simp [revolute])).2.1⟩

end ModelBasedJointStateSpace

end ompl_interface
